import Mathlib

/-!
# FilterGraph (Source/Host/FilterGraph.cpp)

A shallow embedding of the plugin-graph document of the host: the transport clock, the node
factory, the graph store calls, the XML serializer and the MIDI mapping lookup, followed by the
theorems that settle the claims of the specification about them.

Conventions of the embedding

* `uint32` node ids are `Nat` reduced modulo `2 ^ 32`; `int` values are `Int`.
* `float` values are dyadic numbers `m * 2 ^ e`; every `float` operation rounds its exact result
  to a 24-bit significand (round to nearest, ties to even), as IEEE binary32 does.
* A dereference of a null pointer is the result `none` of an `Option`-valued function.
* The collaborators the source calls but does not define (the JUCE graph, XML elements, the
  plugin loader, the timer) are modelled from the specification and marked as such.
-/

namespace Host

/-! ## Machine numbers -/

/-- The conversion `(uint32) i` of an `int`. -/
def toUInt32 (i : Int) : Nat := (i % 4294967296).toNat

/-- The conversion `(int) n` of a `uint32`. -/
def toInt32 (n : Nat) : Int :=
  if n % 4294967296 < 2147483648 then ((n % 4294967296 : Nat) : Int)
  else ((n % 4294967296 : Nat) : Int) - 4294967296

/-- A `float`: the dyadic number `m * 2 ^ e`. Zero is `⟨0, 0⟩`; every other value produced by
the operations below has `2 ^ 23 ≤ |m| < 2 ^ 24`. -/
structure F32 where
  m : Int
  e : Int
deriving DecidableEq, Repr

/-- Number of binary digits of `n`, found by halving at most `fuel` times. -/
def bitLength : Nat → Nat → Nat
  | 0, _ => 0
  | fuel + 1, n => if n = 0 then 0 else bitLength fuel (n / 2) + 1

/-- Significand and exponent of the binary32 value nearest to `n / d` (ties to even),
for `0 < n` and `0 < d`. -/
def roundSig (n d : Nat) : Nat × Int :=
  let e0 : Int := (bitLength n n : Int) - (bitLength d d : Int)
  let e : Int := if n * 2 ^ (-e0).toNat < d * 2 ^ e0.toNat then e0 - 1 else e0
  let k : Int := 23 - e
  let N := n * 2 ^ k.toNat
  let D := d * 2 ^ (-k).toNat
  let q := N / D
  let r := N % D
  let m := if 2 * r < D then q else if D < 2 * r then q + 1 else if q % 2 = 0 then q else q + 1
  if m = 16777216 then (8388608, -k + 1) else (m, -k)

/-- The `float` nearest to the rational `n / d`. A zero denominator (a division by zero, which
the C++ evaluates to an infinity) is mapped to zero; no theorem below relies on that case. -/
def F32.round (n : Int) (d : Nat) : F32 :=
  if n = 0 ∨ d = 0 then ⟨0, 0⟩
  else
    let r := roundSig n.natAbs d
    if 0 < n then ⟨r.1, r.2⟩ else ⟨-(r.1 : Int), r.2⟩

/-- The conversion `(float) i`. -/
def F32.ofInt (i : Int) : F32 := F32.round i 1

/-- The `float` quotient `a / b`. -/
def F32.div (a b : F32) : F32 :=
  let s : Int := if b.m < 0 then -1 else 1
  F32.round (s * a.m * 2 ^ (a.e - b.e).toNat) (b.m.natAbs * 2 ^ (b.e - a.e).toNat)

/-- The `float` product `a * b`. -/
def F32.mul (a b : F32) : F32 :=
  F32.round (a.m * b.m * 2 ^ (a.e + b.e).toNat) (2 ^ (-(a.e + b.e)).toNat)

/-- The `float` sum `a + b`. -/
def F32.add (a b : F32) : F32 :=
  let e := min a.e b.e
  F32.round ((a.m * 2 ^ (a.e - e).toNat + b.m * 2 ^ (b.e - e).toNat) * 2 ^ e.toNat)
    (2 ^ (-e).toNat)

/-- The conversion `(int) a`, truncating toward zero. -/
def F32.toInt (a : F32) : Int :=
  if 0 ≤ a.m then (a.m * 2 ^ a.e.toNat) / 2 ^ (-a.e).toNat
  else -(((-a.m) * 2 ^ a.e.toNat) / 2 ^ (-a.e).toNat)

/-- The comparison `a < b` of two `float`s. -/
def F32.lt (a b : F32) : Bool :=
  let e := min a.e b.e
  decide (a.m * 2 ^ (a.e - e).toNat < b.m * 2 ^ (b.e - e).toNat)

/-- The comparison `a == b` of two `float`s. -/
def F32.beq (a b : F32) : Bool :=
  let e := min a.e b.e
  decide (a.m * 2 ^ (a.e - e).toNat = b.m * 2 ^ (b.e - e).toNat)

/-- The rational number a `float` stands for. -/
def F32.toRat (a : F32) : ℚ := (a.m : ℚ) * (2 : ℚ) ^ a.e

/-! ## XML elements -/

/-- The value of an XML attribute. The library keeps attributes as text; the embedding keeps
the number that the text was printed from (printing and parsing of numbers is the library's). -/
inductive XmlValue where
  | int (v : Int)
  | real (v : ℚ)
  | text (v : String)
deriving DecidableEq

/-- Modelled from the spec: the structured document element (`XmlElement` of the library): a
tag, attributes, child elements and the text inside the element. -/
inductive XmlElement where
  | mk (tagName : String) (attributes : List (String × XmlValue))
      (children : List XmlElement) (subText : String)

namespace XmlElement

/-- The tag of the element. -/
def tagName : XmlElement → String
  | mk t _ _ _ => t

/-- The attributes of the element, in order. -/
def attributes : XmlElement → List (String × XmlValue)
  | mk _ a _ _ => a

/-- The child elements, in document order. -/
def children : XmlElement → List XmlElement
  | mk _ _ c _ => c

/-- `getAllSubText`: the text inside the element. -/
def getAllSubText : XmlElement → String
  | mk _ _ _ s => s

/-- `hasTagName`. -/
def hasTagName (x : XmlElement) (t : String) : Bool := x.tagName == t

/-- The value stored under an attribute name, if any. -/
def getAttribute (x : XmlElement) (name : String) : Option XmlValue :=
  (x.attributes.find? (fun a => a.1 == name)).map (fun a => a.2)

/-- `getIntAttribute`: the attribute as an `int`, `0` when it is missing or not a number. -/
def getIntAttribute (x : XmlElement) (name : String) : Int :=
  match x.getAttribute name with
  | some (XmlValue.int v) => v
  | _ => 0

/-- `getDoubleAttribute`: the attribute as a `double`, `0` when it is missing or not a number. -/
def getDoubleAttribute (x : XmlElement) (name : String) : ℚ :=
  match x.getAttribute name with
  | some (XmlValue.real v) => v
  | some (XmlValue.int v) => (v : ℚ)
  | _ => 0

/-- `getStringAttribute`: the attribute as text, empty when it is missing. -/
def getStringAttribute (x : XmlElement) (name : String) : String :=
  match x.getAttribute name with
  | some (XmlValue.text v) => v
  | _ => ""

/-- `getChildByName`: the first child with the given tag. -/
def getChildByName (x : XmlElement) (t : String) : Option XmlElement :=
  x.children.find? (fun c => c.hasTagName t)

/-- The children visited by `forEachXmlChildElementWithTagName`. -/
def childrenWithTagName (x : XmlElement) (t : String) : List XmlElement :=
  x.children.filter (fun c => c.hasTagName t)

end XmlElement

/-! ## Plugin descriptors and processors -/

/-- The plugin descriptor (`PluginDescription`): the fields the source and the spec name. -/
structure PluginDescription where
  name : String := ""
  pluginFormatName : String := ""
  fileOrIdentifier : String := ""
  numInputChannels : Int := 0
  numOutputChannels : Int := 0
deriving DecidableEq

/-- Modelled from the spec: `PluginDescription::createXml`, the embedded plugin-descriptor
record (name, format/backend kind, file-or-identifier, channel counts). -/
def PluginDescription.createXml (d : PluginDescription) : XmlElement :=
  XmlElement.mk "PLUGIN"
    [("name", XmlValue.text d.name), ("format", XmlValue.text d.pluginFormatName),
     ("file", XmlValue.text d.fileOrIdentifier), ("numInputs", XmlValue.int d.numInputChannels),
     ("numOutputs", XmlValue.int d.numOutputChannels)] [] ""

/-- Modelled from the spec: `PluginDescription::loadFromXml`, which reads a descriptor record
back and reports whether the element was one (`none` is the C++ result `false`). -/
def PluginDescription.loadFromXml (x : XmlElement) : Option PluginDescription :=
  if x.hasTagName "PLUGIN" then
    some { name := x.getStringAttribute "name"
           pluginFormatName := x.getStringAttribute "format"
           fileOrIdentifier := x.getStringAttribute "file"
           numInputChannels := x.getIntAttribute "numInputs"
           numOutputChannels := x.getIntAttribute "numOutputs" }
  else none

/-- A memory block of opaque plugin state, kept as its base64 text. -/
abbrev MemoryBlock := String

/-- A plugin object made by the plugin-loading collaborator. -/
structure AudioPluginInstance where
  description : PluginDescription
  numInputChannels : Int
  numOutputChannels : Int
  state : MemoryBlock := ""
deriving DecidableEq

/-- The classes of processor the `dynamic_cast`s of `createNodeXml` tell apart. -/
inductive ProcessorKind where
  | AutomationProcessor
  | AudioFilePlaybackProcessor
  | AudioPluginInstance
  | CabbagePluginAudioProcessor
  | PluginWrapper
deriving DecidableEq

/-- The processor owned by a node. `plugin` is the loaded plugin of an `AudioPluginInstance`
and the plugin wrapped by a `PluginWrapper` (`none`: the wrapper was built around `nullptr`). -/
structure AudioProcessor where
  kind : ProcessorKind
  numInputChannels : Int := 0
  numOutputChannels : Int := 0
  plugin : Option AudioPluginInstance := none
  name : String := ""
  file : String := ""
  state : MemoryBlock := ""
  playHead : Bool := false
deriving DecidableEq

/-- `setPlayConfigDetails`: sets the channel counts (rate and block size are not modelled). -/
def AudioProcessor.setPlayConfigDetails (p : AudioProcessor) (ins outs : Int) : AudioProcessor :=
  { p with numInputChannels := ins, numOutputChannels := outs }

/-- `setPlayHead (&audioPlayHead)`: attaches the shared play-head. -/
def AudioProcessor.setPlayHead (p : AudioProcessor) : AudioProcessor :=
  { p with playHead := true }

/-- `setStateInformation`: hands the opaque state to the processor. -/
def AudioProcessor.setStateInformation (p : AudioProcessor) (m : MemoryBlock) : AudioProcessor :=
  { p with state := m }

/-- `getStateInformation`: the opaque state of the processor. -/
def AudioProcessor.getStateInformation (p : AudioProcessor) : MemoryBlock := p.state

/-- Modelled from the spec: `fillInPluginDescription` of a loaded plugin or of a wrapper, which
describes the live plugin instance; a wrapper around no plugin has nothing to describe. -/
def AudioProcessor.fillInPluginDescription (p : AudioProcessor) : Option PluginDescription :=
  p.plugin.map (fun i => i.description)

/-- The collaborators of the node factory: the plugin-loading service
(`formatManager.createPluginInstance`, `none` when it fails) and the two readings of a Cabbage
source file (`cUtils::getNchnlsFromFile`, `getPluginName`). -/
structure Collaborators where
  createPluginInstance : PluginDescription → Option AudioPluginInstance
  getNchnlsFromFile : String → Int
  getPluginName : String → String

/-! ## The graph store (`AudioProcessorGraph`) -/

/-- The property bag of a node (`node->properties`); `none` is a property never set. -/
structure NodeProperties where
  x : Option ℚ := none
  y : Option ℚ := none
  uiLastX : Option Int := none
  uiLastY : Option Int := none
  pluginType : Option String := none
  pluginName : Option String := none
  pluginDesc : Option PluginDescription := none
deriving DecidableEq

/-- A node of the graph. -/
structure Node where
  nodeId : Nat
  processor : AudioProcessor
  properties : NodeProperties := {}
deriving DecidableEq

/-- A connection of the graph. -/
structure Connection where
  sourceNodeId : Nat
  sourceChannelIndex : Int
  destNodeId : Nat
  destChannelIndex : Int
deriving DecidableEq

/-- Modelled from the spec: the graph store, the nodes and the directed connections between
node channels, with the counter that hands out node ids. -/
structure AudioProcessorGraph where
  nodes : List Node := []
  connections : List Connection := []
  lastNodeId : Nat := 0
deriving DecidableEq

namespace AudioProcessorGraph

/-- Modelled from the spec: `clear` drops all nodes and connections. -/
def clear (g : AudioProcessorGraph) : AudioProcessorGraph :=
  { g with nodes := [], connections := [] }

/-- Modelled from the spec: node lookup by id (`none` is "not found"). -/
def getNodeForId (g : AudioProcessorGraph) (nodeId : Nat) : Option Node :=
  g.nodes.find? (fun n => n.nodeId == nodeId)

/-- Modelled from the spec: `disconnectNode` removes all edges touching a node and reports
whether there was one. -/
def disconnectNode (g : AudioProcessorGraph) (nodeId : Nat) : Bool × AudioProcessorGraph :=
  (g.connections.any (fun c => c.sourceNodeId == nodeId || c.destNodeId == nodeId),
   { g with connections :=
       g.connections.filter (fun c => !(c.sourceNodeId == nodeId || c.destNodeId == nodeId)) })

/-- Modelled from the spec: `removeNode` disconnects the node and removes it, and reports
whether the node was there. -/
def removeNode (g : AudioProcessorGraph) (nodeId : Nat) : Bool × AudioProcessorGraph :=
  let g1 := (g.disconnectNode nodeId).2
  (g1.nodes.any (fun n => n.nodeId == nodeId),
   { g1 with nodes := g1.nodes.filter (fun n => !(n.nodeId == nodeId)) })

/-- Modelled from the spec: `addNode (processor)` without an id takes the next id of the counter;
the new node is the last of the list and is returned. -/
def addNode (g : AudioProcessorGraph) (p : AudioProcessor) : Node × AudioProcessorGraph :=
  let nodeId := (g.lastNodeId + 1) % 4294967296
  let n : Node := { nodeId := nodeId, processor := p }
  (n, { g with nodes := g.nodes ++ [n], lastNodeId := nodeId })

/-- Modelled from the spec: `addNode (processor, nodeId)` uses the caller-supplied id; ids stay
unique within the graph (a node already holding the id is removed first) and the counter never
falls behind an id in use. -/
def addNodeWithId (g : AudioProcessorGraph) (p : AudioProcessor) (nodeId : Nat) :
    Node × AudioProcessorGraph :=
  let g1 := (g.removeNode nodeId).2
  let n : Node := { nodeId := nodeId, processor := p }
  (n, { g1 with nodes := g1.nodes ++ [n], lastNodeId := max g1.lastNodeId nodeId })

/-- The node a `Node*` returned by `addNode` points to is the last of the list; `setNode` writes
the node back after the caller changed its properties or processor through the pointer. -/
def setNode (g : AudioProcessorGraph) (n : Node) : AudioProcessorGraph :=
  { g with nodes := g.nodes.dropLast ++ [n] }

/-- Modelled from the spec: `getConnectionBetween`, the edge with these endpoints, if any. -/
def getConnectionBetween (g : AudioProcessorGraph) (src : Nat) (srcCh : Int) (dst : Nat)
    (dstCh : Int) : Option Connection :=
  g.connections.find? (fun c => c == ⟨src, srcCh, dst, dstCh⟩)

/-- Modelled from the spec: the endpoints validate: both nodes exist and the channel indices
are valid for their output and input counts. -/
def endpointsValid (g : AudioProcessorGraph) (src : Nat) (srcCh : Int) (dst : Nat)
    (dstCh : Int) : Bool :=
  match g.getNodeForId src, g.getNodeForId dst with
  | some s, some d =>
      decide (0 ≤ srcCh) && decide (srcCh < s.processor.numOutputChannels) &&
      decide (0 ≤ dstCh) && decide (dstCh < d.processor.numInputChannels)
  | _, _ => false

/-- Modelled from the spec: `canConnect`, the pure legality check: the endpoints validate and
the edge is not already there (no duplicate edges). -/
def canConnect (g : AudioProcessorGraph) (src : Nat) (srcCh : Int) (dst : Nat) (dstCh : Int) :
    Bool :=
  g.endpointsValid src srcCh dst dstCh && (g.getConnectionBetween src srcCh dst dstCh).isNone

/-- Modelled from the spec: `addConnection` adds a legal edge and returns `true`, and is a
no-op returning `false` otherwise. -/
def addConnection (g : AudioProcessorGraph) (src : Nat) (srcCh : Int) (dst : Nat) (dstCh : Int) :
    Bool × AudioProcessorGraph :=
  if g.canConnect src srcCh dst dstCh then
    (true, { g with connections := g.connections ++ [⟨src, srcCh, dst, dstCh⟩] })
  else (false, g)

/-- Modelled from the spec: `removeConnection (index)` removes the edge at an index; an index
outside the list removes nothing. The call returns nothing. -/
def removeConnectionAt (g : AudioProcessorGraph) (index : Int) : AudioProcessorGraph :=
  if 0 ≤ index then { g with connections := g.connections.eraseIdx index.toNat } else g

/-- Modelled from the spec: `removeConnection` by endpoint tuple removes the matching edge and
reports whether there was one. -/
def removeConnection (g : AudioProcessorGraph) (src : Nat) (srcCh : Int) (dst : Nat)
    (dstCh : Int) : Bool × AudioProcessorGraph :=
  (g.connections.any (fun c => c == ⟨src, srcCh, dst, dstCh⟩),
   { g with connections := g.connections.filter (fun c => !(c == ⟨src, srcCh, dst, dstCh⟩)) })

/-- Modelled from the spec: `removeIllegalConnections` purges the edges whose nodes or channels
no longer validate and reports whether there was one. -/
def removeIllegalConnections (g : AudioProcessorGraph) : Bool × AudioProcessorGraph :=
  (g.connections.any (fun c =>
      !(g.endpointsValid c.sourceNodeId c.sourceChannelIndex c.destNodeId c.destChannelIndex)),
   { g with connections := g.connections.filter (fun c =>
      g.endpointsValid c.sourceNodeId c.sourceChannelIndex c.destNodeId c.destChannelIndex) })

end AudioProcessorGraph

/-! ## The document (`FilterGraph`) -/

/-- A MIDI mapping record, `CabbageMidiMapping (nodeId, parameterIndex, channel, controller)`. -/
structure CabbageMidiMapping where
  nodeId : Int
  parameterIndex : Int
  channel : Int
  controller : Int
deriving DecidableEq

/-- The per-node parameter listener, `NodeAudioProcessorListener (nodeId)`. -/
structure NodeAudioProcessorListener where
  nodeId : Nat
  parameterIndex : Int := 0
deriving DecidableEq

/-- The shared play-head object (`audioPlayHead`). -/
structure AudioPlayHead where
  isPlaying : Bool := false
  ppqPosition : Int := 0
  timeInSeconds : Int := 0
  bpm : Int := 0
deriving DecidableEq

/-- The result of a document load or save (`Result`). -/
inductive Result where
  | ok
  | fail (message : String)
deriving DecidableEq

/-- The state of a `FilterGraph`: the members the source reads and writes, the dirty flag of
the document base class (`changedFlag`, set by `changed ()`), the timer of the timer base class
(`timerRunning`, `timerInterval`) and the alert boxes shown so far. -/
structure FilterGraph where
  graph : AudioProcessorGraph := {}
  midiMappings : List CabbageMidiMapping := []
  audioProcessorListeners : List NodeAudioProcessorListener := []
  lastUID : Nat := 0
  lastNodeID : Nat := 0
  automationNodeID : Int := -1
  audioPlayHead : AudioPlayHead := {}
  timeInSeconds : Int := 0
  currentBPM : Int := 60
  playPosition : F32 := ⟨0, 0⟩
  PPQN : Int := 24
  ppqPosition : Int := 1
  subTicks : Int := 0
  timerRunning : Bool := false
  timerInterval : Int := 0
  changedFlag : Bool := false
  alerts : List String := []
deriving DecidableEq

namespace FilterGraph

/-- `midiChannelNumber`. -/
def midiChannelNumber : Int := 0x1000

/-- Modelled from the spec: `changed ()` of the document base class marks the document dirty. -/
def changed (s : FilterGraph) : FilterGraph := { s with changedFlag := true }

/-- Modelled from the spec: `setChangedFlag`. -/
def setChangedFlag (s : FilterGraph) (b : Bool) : FilterGraph := { s with changedFlag := b }

/-- Modelled from the spec: `startTimer (period)` of the timer base class starts the periodic
callback; `timerInterval` is the period the call was given, in milliseconds. -/
def startTimer (s : FilterGraph) (intervalInMilliseconds : Int) : FilterGraph :=
  { s with timerRunning := true, timerInterval := intervalInMilliseconds }

/-- Modelled from the spec: `stopTimer ()` stops the periodic callback. -/
def stopTimer (s : FilterGraph) : FilterGraph := { s with timerRunning := false }

/-- `isTimerRunning ()`. -/
def isTimerRunning (s : FilterGraph) : Bool := s.timerRunning

/-- `getTimerInterval ()`. -/
def getTimerInterval (s : FilterGraph) : Int := s.timerInterval

/-- The argument `100*(60.f/currentBPM)` of `startTimer`, a `float` product converted to the
`int` the timer takes. -/
def timerPeriod (bpm : Int) : Int :=
  F32.toInt (F32.mul (F32.ofInt 100) (F32.div (F32.ofInt 60) (F32.ofInt bpm)))

/-- `FilterGraph::setBPM`. -/
def setBPM (s : FilterGraph) (bpm : Int) : FilterGraph :=
  let s1 := { s with currentBPM := bpm, audioPlayHead := { s.audioPlayHead with bpm := bpm } }
  if s1.isTimerRunning then
    (s1.stopTimer).startTimer (timerPeriod s1.currentBPM)
  else s1

/-- The constructor `FilterGraph::FilterGraph`: the member initialisers, then
`startTimer(0); stopTimer(); setChangedFlag(false); setBPM(60);`. -/
def init : FilterGraph :=
  let s : FilterGraph :=
    { lastUID := 0, timeInSeconds := 0, currentBPM := 60, playPosition := F32.ofInt 0, PPQN := 24,
      ppqPosition := 1, automationNodeID := -1, subTicks := 0 }
  ((((s.startTimer 0).stopTimer).setChangedFlag false).setBPM 60)

/-- `FilterGraph::setIsPlaying`. -/
def setIsPlaying (s : FilterGraph) (value : Bool) (reset : Bool) : FilterGraph :=
  let s1 := { s with audioPlayHead := { s.audioPlayHead with isPlaying := value } }
  let s2 := if value == true then s1.startTimer (timerPeriod s1.currentBPM) else s1.stopTimer
  if reset == true then
    { s2 with
      timeInSeconds := 0
      audioPlayHead := { s2.audioPlayHead with ppqPosition := 0, timeInSeconds := 0 }
      ppqPosition := 0 }
  else s2

/-- `FilterGraph::hiResTimerCallback`. -/
def hiResTimerCallback (s : FilterGraph) : FilterGraph :=
  let s1 :=
    if F32.beq s.playPosition (F32.ofInt 0) then
      { s with
        timeInSeconds := s.timeInSeconds + 1
        audioPlayHead := { s.audioPlayHead with timeInSeconds := s.timeInSeconds + 1 } }
    else s
  let s2 :=
    if s1.subTicks = 0 then
      { s1 with
        audioPlayHead := { s1.audioPlayHead with ppqPosition := s1.ppqPosition }
        ppqPosition := s1.ppqPosition + 1 }
    else s1
  { s2 with
    subTicks := if s2.subTicks > 9 then 0 else s2.subTicks + 1
    playPosition :=
      if F32.lt (F32.ofInt 1) s2.playPosition then F32.ofInt 0
      else F32.add s2.playPosition (F32.div (F32.ofInt s2.getTimerInterval) (F32.ofInt 1000)) }

/-- The state after `n` timer callbacks. -/
def callbacks : Nat → FilterGraph → FilterGraph
  | 0, s => s
  | n + 1, s => callbacks n (hiResTimerCallback s)

/-- The statement repeated in every branch of `createNode`:
`if(uid!=-1) node = graph.addNode (p, uid); else node = graph.addNode (p);`. -/
def addNodeFor (g : AudioProcessorGraph) (p : AudioProcessor) (uid : Int) :
    Node × AudioProcessorGraph :=
  if uid ≠ -1 then g.addNodeWithId p (toUInt32 uid) else g.addNode p

/-- `FilterGraph::createNode`: the node made for a descriptor (`none` is `nullptr`) and the
state after the call. The `pluginDesc` property holds the text of `desc->createXml()`. -/
def createNode (c : Collaborators) (s : FilterGraph) (desc : PluginDescription) (uid : Int) :
    Option Node × FilterGraph :=
  if desc.pluginFormatName = "AutomationTrack" then
    let automation : AudioProcessor :=
      AudioProcessor.setPlayConfigDetails { kind := ProcessorKind.AutomationProcessor } 2 2
    let r := addNodeFor s.graph automation uid
    let node : Node :=
      { r.1 with
        properties :=
          { r.1.properties with
            pluginType := some "AutomationTrack"
            pluginName := some "AutomationTrack"
            pluginDesc := some desc }
        processor := r.1.processor.setPlayHead }
    (some node, { s with graph := r.2.setNode node, automationNodeID := (r.1.nodeId : Int) })
  else if desc.pluginFormatName = "SoundfilePlayer" then
    let soundfiler : AudioProcessor :=
      AudioProcessor.setPlayConfigDetails
        { kind := ProcessorKind.AudioFilePlaybackProcessor, file := desc.fileOrIdentifier } 2 2
    let r := addNodeFor s.graph soundfiler uid
    let node : Node :=
      { r.1 with
        properties :=
          { r.1.properties with
            pluginType := some "SoundfilePlayer"
            pluginName := some "Soundfile Player"
            pluginDesc := some desc }
        processor := r.1.processor.setPlayHead }
    (some node, { s with graph := r.2.setNode node })
  else if desc.pluginFormatName = "Internal" then
    match c.createPluginInstance desc with
    | some inst =>
        let p : AudioProcessor :=
          { kind := ProcessorKind.AudioPluginInstance
            numInputChannels := inst.numInputChannels
            numOutputChannels := inst.numOutputChannels
            plugin := some inst
            name := inst.description.name
            state := inst.state }
        let r := addNodeFor s.graph p uid
        let node : Node :=
          { r.1 with
            properties :=
              { r.1.properties with pluginType := some "Internal", pluginName := some desc.name } }
        (some node, { s with graph := r.2.setNode node })
    | none => (none, s)
  else if desc.pluginFormatName = "Cabbage" then
    let numChannels := c.getNchnlsFromFile desc.fileOrIdentifier
    let cabbageNativePlugin : AudioProcessor :=
      AudioProcessor.setPlayConfigDetails
        { kind := ProcessorKind.CabbagePluginAudioProcessor
          file := desc.fileOrIdentifier
          name := c.getPluginName desc.fileOrIdentifier } numChannels numChannels
    let r := addNodeFor s.graph cabbageNativePlugin uid
    let node : Node :=
      { r.1 with
        properties :=
          { r.1.properties with
            pluginName := some cabbageNativePlugin.name
            pluginType := some "Cabbage"
            pluginDesc := some desc }
        processor := r.1.processor.setPlayHead }
    (some node, { s with graph := r.2.setNode node })
  else
    -- `new PluginWrapper (...)` is never null, whatever the loader returned
    let instance0 : AudioProcessor :=
      { kind := ProcessorKind.PluginWrapper, plugin := c.createPluginInstance desc }
    let instance1 : AudioProcessor :=
      { instance0.setPlayConfigDetails desc.numInputChannels desc.numOutputChannels with
        name := desc.name }
    let r := addNodeFor s.graph instance1 uid
    let node : Node :=
      { r.1 with
        properties :=
          { r.1.properties with pluginType := some "ThirdParty", pluginName := some desc.name }
        processor := r.1.processor.setPlayHead }
    (some node, { s with graph := r.2.setNode node })

/-- `FilterGraph::addFilter`; `createNode (desc)` is called without an id, which is the `uid`
value `-1` that `createNode` tests for. -/
def addFilter (c : Collaborators) (s : FilterGraph) (desc : Option PluginDescription) (x y : ℚ) :
    FilterGraph :=
  match desc with
  | none => s
  | some d =>
      match createNode c s d (-1) with
      | (some node, s1) =>
          let node1 : Node :=
            { node with properties := { node.properties with x := some x, y := some y } }
          changed
            { s1 with
              graph := s1.graph.setNode node1
              lastNodeID := node1.nodeId
              audioProcessorListeners := s1.audioProcessorListeners ++ [{ nodeId := node1.nodeId }] }
      | (none, s1) => { s1 with alerts := s1.alerts ++ ["Couldn't create filter"] }

/-- `FilterGraph::findControllerForparameter`, the loop over `midiMappings` from index `0`. -/
def findControllerForparameter : List CabbageMidiMapping → Int → Int → String
  | [], _, _ => ""
  | m :: rest, nodeID, paramIndex =>
      if m.nodeId = nodeID ∧ m.parameterIndex = paramIndex then
        "CC:" ++ toString m.controller ++ " Chan:" ++ toString m.channel
      else findControllerForparameter rest nodeID paramIndex

/-- `FilterGraph::removeFilter` (closing the plugin windows of the node is not modelled). -/
def removeFilter (s : FilterGraph) (id : Nat) : FilterGraph :=
  let r := s.graph.removeNode id
  if r.1 then changed { s with graph := r.2 } else { s with graph := r.2 }

/-- `FilterGraph::disconnectFilter`. -/
def disconnectFilter (s : FilterGraph) (id : Nat) : FilterGraph :=
  let r := s.graph.disconnectNode id
  if r.1 then changed { s with graph := r.2 } else { s with graph := r.2 }

/-- `FilterGraph::removeIllegalConnections`. -/
def removeIllegalConnections (s : FilterGraph) : FilterGraph :=
  let r := s.graph.removeIllegalConnections
  if r.1 then changed { s with graph := r.2 } else { s with graph := r.2 }

/-- `jlimit (lowerLimit, upperLimit, valueToConstrain)` of the library. -/
def jlimit (lowerLimit upperLimit valueToConstrain : ℚ) : ℚ :=
  if valueToConstrain < lowerLimit then lowerLimit
  else if upperLimit < valueToConstrain then upperLimit
  else valueToConstrain

/-- Writes through the `Node::Ptr` that `getNodeForId` returned: the first node of the list
with the id is replaced by its image under `f`. -/
def updateNodeForId (f : Node → Node) : List Node → Nat → List Node
  | [], _ => []
  | n :: rest, nodeId =>
      if n.nodeId = nodeId then f n :: rest else n :: updateNodeForId f rest nodeId

/-- `FilterGraph::setNodePosition`. -/
def setNodePosition (s : FilterGraph) (nodeId : Int) (x y : ℚ) : FilterGraph :=
  match s.graph.getNodeForId (toUInt32 nodeId) with
  | some _ =>
      { s with
        graph :=
          { s.graph with
            nodes :=
              updateNodeForId
                (fun n =>
                  { n with
                    properties :=
                      { n.properties with
                        x := some (jlimit 0 1 x)
                        y := some (jlimit 0 1 y) } })
                s.graph.nodes (toUInt32 nodeId) } }
  | none => s

/-- `FilterGraph::getNodePosition`: the pair `(x, y)`; a property never set reads as `0`. -/
def getNodePosition (s : FilterGraph) (nodeId : Int) : ℚ × ℚ :=
  match s.graph.getNodeForId (toUInt32 nodeId) with
  | some n => (n.properties.x.getD 0, n.properties.y.getD 0)
  | none => (0, 0)

/-- `FilterGraph::canConnect`. -/
def canConnect (s : FilterGraph) (sourceFilterUID : Nat) (sourceFilterChannel : Int)
    (destFilterUID : Nat) (destFilterChannel : Int) : Bool :=
  s.graph.canConnect sourceFilterUID sourceFilterChannel destFilterUID destFilterChannel

/-- `FilterGraph::addConnection`: the result and the state after the call. -/
def addConnection (s : FilterGraph) (sourceFilterUID : Nat) (sourceFilterChannel : Int)
    (destFilterUID : Nat) (destFilterChannel : Int) : Bool × FilterGraph :=
  let r := s.graph.addConnection sourceFilterUID sourceFilterChannel destFilterUID
    destFilterChannel
  if r.1 then (r.1, changed { s with graph := r.2 }) else (r.1, { s with graph := r.2 })

/-- `FilterGraph::removeConnection (const int index)`. -/
def removeConnectionAt (s : FilterGraph) (index : Int) : FilterGraph :=
  changed { s with graph := s.graph.removeConnectionAt index }

/-- `FilterGraph::removeConnection` by endpoint tuple. -/
def removeConnection (s : FilterGraph) (sourceFilterUID : Nat) (sourceFilterChannel : Int)
    (destFilterUID : Nat) (destFilterChannel : Int) : FilterGraph :=
  let r := s.graph.removeConnection sourceFilterUID sourceFilterChannel destFilterUID
    destFilterChannel
  if r.1 then changed { s with graph := r.2 } else { s with graph := r.2 }

/-- `FilterGraph::clear` (closing the plugin windows is not modelled). -/
def clear (s : FilterGraph) : FilterGraph :=
  changed { s with graph := s.graph.clear }

/-- The text of a property written into an attribute, `properties [...].toString()`: the
number, or the empty text of a property never set. -/
def propertyText (v : Option XmlValue) : XmlValue := v.getD (XmlValue.text "")

/-- The first half of `createNodeXml`, the chain of `dynamic_cast`s that fills the descriptor
`pd`. `none` is a null dereference: the descriptor text of a Cabbage, sound-file or automation
node does not parse (the property was never set), or the processor has no plugin to describe. -/
def describeNode (node : Node) : Option PluginDescription :=
  match node.processor.kind with
  | ProcessorKind.AudioPluginInstance => node.processor.fillInPluginDescription
  | ProcessorKind.PluginWrapper => node.processor.fillInPluginDescription
  | _ =>
      match node.properties.pluginDesc with
      | some d => some ((PluginDescription.loadFromXml d.createXml).getD {})
      | none => none

/-- `createNodeXml`: the `FILTER` record of a node; `none` when `describeNode` fails. -/
def createNodeXml (node : Node) : Option XmlElement :=
  match describeNode node with
  | none => none
  | some pd =>
      let state : XmlElement :=
        XmlElement.mk "STATE" [] [] node.processor.getStateInformation
      some (XmlElement.mk "FILTER"
        [("uid", XmlValue.int (toInt32 node.nodeId)),
         ("x", propertyText (node.properties.x.map XmlValue.real)),
         ("y", propertyText (node.properties.y.map XmlValue.real)),
         ("uiLastX", propertyText (node.properties.uiLastX.map XmlValue.int)),
         ("uiLastY", propertyText (node.properties.uiLastY.map XmlValue.int))]
        [pd.createXml, state] "")

/-- `FilterGraph::createNodeFromXml`. `none` is the dereference of the null `node`. -/
def createNodeFromXml (c : Collaborators) (s : FilterGraph) (xml : XmlElement) :
    Option FilterGraph :=
  let desc : PluginDescription := (xml.children.findSome? PluginDescription.loadFromXml).getD {}
  match createNode c s desc (xml.getIntAttribute "uid") with
  | (none, _) => none
  | (some node, s1) =>
      let node1 : Node :=
        match xml.getChildByName "STATE" with
        | some state =>
            { node with processor := node.processor.setStateInformation state.getAllSubText }
        | none => node
      let node2 : Node :=
        { node1 with
          properties :=
            { node1.properties with
              x := some (xml.getDoubleAttribute "x")
              y := some (xml.getDoubleAttribute "y")
              uiLastX := some (xml.getIntAttribute "uiLastX")
              uiLastY := some (xml.getIntAttribute "uiLastY")
              pluginName := some desc.name } }
      some { s1 with graph := s1.graph.setNode node2 }

/-- The `CONNECTION` record of a connection, as `createXml` builds it. -/
def createConnectionXml (fc : Connection) : XmlElement :=
  XmlElement.mk "CONNECTION"
    [("srcFilter", XmlValue.int (toInt32 fc.sourceNodeId)),
     ("srcChannel", XmlValue.int fc.sourceChannelIndex),
     ("dstFilter", XmlValue.int (toInt32 fc.destNodeId)),
     ("dstChannel", XmlValue.int fc.destChannelIndex)] [] ""

/-- The `MIDI_MAPPINGS` record of a mapping, as `createXml` builds it. -/
def createMappingXml (m : CabbageMidiMapping) : XmlElement :=
  XmlElement.mk "MIDI_MAPPINGS"
    [("NodeId", XmlValue.int m.nodeId), ("ParameterIndex", XmlValue.int m.parameterIndex),
     ("Channel", XmlValue.int m.channel), ("Controller", XmlValue.int m.controller)] [] ""

/-- The first loop of `createXml`: the `FILTER` records of the nodes, in order; `none` when
`createNodeXml` fails on a node. -/
def createNodesXml : List Node → Option (List XmlElement)
  | [] => some []
  | n :: rest =>
      match createNodeXml n, createNodesXml rest with
      | some e, some es => some (e :: es)
      | _, _ => none

/-- `FilterGraph::createXml`; `none` when `createNodeXml` fails on a node. -/
def createXml (s : FilterGraph) : Option XmlElement :=
  match createNodesXml s.graph.nodes with
  | none => none
  | some filters =>
      some (XmlElement.mk "FILTERGRAPH" []
        (filters ++ s.graph.connections.map createConnectionXml ++
          s.midiMappings.map createMappingXml) "")

/-- `FilterGraph::restoreFromXml`; `none` when `createNodeFromXml` fails on a record. -/
def restoreFromXml (c : Collaborators) (s : FilterGraph) (xml : XmlElement) :
    Option FilterGraph :=
  let s0 := s.clear
  match (xml.childrenWithTagName "FILTER").foldlM
      (fun t e => (createNodeFromXml c t e).map changed) s0 with
  | none => none
  | some s1 =>
      let s2 := (xml.childrenWithTagName "CONNECTION").foldl
        (fun t e =>
          (t.addConnection (toUInt32 (e.getIntAttribute "srcFilter"))
            (e.getIntAttribute "srcChannel") (toUInt32 (e.getIntAttribute "dstFilter"))
            (e.getIntAttribute "dstChannel")).2) s1
      let s3 := { s2 with graph := s2.graph.removeIllegalConnections.2 }
      some ((xml.childrenWithTagName "MIDI_MAPPINGS").foldl
        (fun t e =>
          { t with
            midiMappings := t.midiMappings ++
              [⟨e.getIntAttribute "NodeId", e.getIntAttribute "ParameterIndex",
                e.getIntAttribute "Channel", e.getIntAttribute "Controller"⟩] }) s3)

/-- `FilterGraph::loadDocument`, on the root element the file parsed to (`none`: the file did
not parse). The outer `none` is a null dereference inside `restoreFromXml`. -/
def loadDocument (c : Collaborators) (s : FilterGraph) (xml : Option XmlElement) :
    Option (Result × FilterGraph) :=
  let s1 := { s with graph := s.graph.clear }
  match xml with
  | none => some (Result.fail "Not a valid filter graph file", s1)
  | some root =>
      if !root.hasTagName "FILTERGRAPH" then
        some (Result.fail "Not a valid filter graph file", s1)
      else
        match restoreFromXml c s1 root with
        | none => none
        | some s2 => some (Result.ok, s2)

/-! ## Valid documents and the examples used below -/

/-- Two nodes with the same id and the same channel counts. -/
def sameShape (a b : Node) : Prop :=
  a.nodeId = b.nodeId ∧
  a.processor.numInputChannels = b.processor.numInputChannels ∧
  a.processor.numOutputChannels = b.processor.numOutputChannels

/-- The plugin of a node can be instantiated: the `FILTER` record of the node can be written,
and loading that record on its own makes a node with the channel counts the node has. -/
def canReinstantiate (c : Collaborators) (n : Node) : Bool :=
  match createNodeXml n with
  | none => false
  | some e =>
      match createNodeFromXml c {} e with
      | none => false
      | some t =>
          match t.graph.nodes.getLast? with
          | none => false
          | some n1 =>
              decide (n1.processor.numInputChannels = n.processor.numInputChannels) &&
              decide (n1.processor.numOutputChannels = n.processor.numOutputChannels)

/-- A valid document: the node ids are distinct `uint32` values, the connections are distinct
and their endpoints validate, and every node's plugin can be instantiated. -/
def validDocument (c : Collaborators) (s : FilterGraph) : Prop :=
  (s.graph.nodes.map (fun n => n.nodeId)).Nodup ∧
  (∀ n ∈ s.graph.nodes, n.nodeId < 4294967296) ∧
  s.graph.connections.Nodup ∧
  (∀ fc ∈ s.graph.connections,
    s.graph.endpointsValid fc.sourceNodeId fc.sourceChannelIndex fc.destNodeId
      fc.destChannelIndex = true) ∧
  (∀ n ∈ s.graph.nodes, canReinstantiate c n = true)

instance (c : Collaborators) (s : FilterGraph) : Decidable (validDocument c s) := by
  unfold validDocument
  infer_instance

/-- Example collaborators: the loader knows the plugin named `gain` (2 in, 2 out) and fails on
every other descriptor. -/
def exampleCollaborators : Collaborators :=
  { createPluginInstance := fun d => if d.name = "gain" then some ⟨d, 2, 2, ""⟩ else none
    getNchnlsFromFile := fun _ => 2
    getPluginName := fun f => f }

/-- Example descriptor: the third-party plugin `gain`, 2 in and 2 out. -/
def gainDescription : PluginDescription :=
  { name := "gain", pluginFormatName := "VST", fileOrIdentifier := "gain.dll",
    numInputChannels := 2, numOutputChannels := 2 }

/-- The example scenario of the spec: nodes A and B (2 in, 2 out) made by `addFilter` in a new
document, then the connection (A,0) → (B,0). -/
def exampleDocument : FilterGraph :=
  let s1 := addFilter exampleCollaborators init (some gainDescription) 0 0
  let s2 := addFilter exampleCollaborators s1 (some gainDescription) 1 1
  (s2.addConnection 1 0 2 0).2

/-- A `FILTER` record of the plugin `gain` with the given `uid`. -/
def gainRecord (uid : Int) : XmlElement :=
  XmlElement.mk "FILTER" [("uid", XmlValue.int uid)] [gainDescription.createXml] ""

/-- A document reached through the public calls whose only node has the id `0xFFFFFFFF`: a
file with one `FILTER` record of uid `-2` is loaded, `addFilter` takes the next id, and the
loaded node is removed. -/
def lastIdDocument : FilterGraph :=
  match restoreFromXml exampleCollaborators init
      (XmlElement.mk "FILTERGRAPH" [] [gainRecord (-2)] "") with
  | some s => (addFilter exampleCollaborators s (some gainDescription) 0 0).removeFilter 4294967294
  | none => init

/-- Example descriptor of a third-party plugin the example loader fails on. -/
def missingDescription : PluginDescription :=
  { name := "missing", pluginFormatName := "VST", fileOrIdentifier := "missing.dll",
    numInputChannels := 2, numOutputChannels := 2 }

/-- Example descriptor of an internal plugin the example loader fails on. -/
def missingInternalDescription : PluginDescription :=
  { name := "missing", pluginFormatName := "Internal" }

/-- A `FILTER` record of uid `5` whose plugin is `missingInternalDescription`. -/
def missingInternalRecord : XmlElement :=
  XmlElement.mk "FILTER" [("uid", XmlValue.int 5)]
    [missingInternalDescription.createXml, XmlElement.mk "STATE" [] [] ""] ""

/-- A node of id `0xFFFFFFFF` holding the plugin `gain`. -/
def lastIdNode : Node :=
  { nodeId := 4294967295
    processor :=
      { kind := ProcessorKind.PluginWrapper, numInputChannels := 2, numOutputChannels := 2,
        plugin := exampleCollaborators.createPluginInstance gainDescription } }

/-- The mapping that `restoreFromXml` reads from a `MIDI_MAPPINGS` record. -/
def readMappingXml (e : XmlElement) : CabbageMidiMapping :=
  ⟨e.getIntAttribute "NodeId", e.getIntAttribute "ParameterIndex",
    e.getIntAttribute "Channel", e.getIntAttribute "Controller"⟩

/-- The `MIDI_MAPPINGS` records of a document tree, read in document order. -/
def readMappings (xml : XmlElement) : List CabbageMidiMapping :=
  (xml.childrenWithTagName "MIDI_MAPPINGS").map readMappingXml

/-- A `FILTER` record loads: `createNodeFromXml` on it goes through without a null node. -/
def recordLoads (c : Collaborators) (e : XmlElement) : Bool :=
  (createNodeFromXml c {} e).isSome

/-- A document tree with one node (`gain`, uid 1) and one mapping: parameter 0 of node 1 on
controller 7, channel 1. -/
def documentA : XmlElement :=
  XmlElement.mk "FILTERGRAPH" [] [gainRecord 1, createMappingXml ⟨1, 0, 1, 7⟩] ""

/-- A document tree with one node (`gain`, uid 1) and one mapping: parameter 3 of node 1 on
controller 20, channel 2. -/
def documentB : XmlElement :=
  XmlElement.mk "FILTERGRAPH" [] [gainRecord 1, createMappingXml ⟨1, 3, 2, 20⟩] ""

/-- The document after `documentA` was loaded into a new `FilterGraph`. -/
def loadedDocumentA : FilterGraph :=
  (restoreFromXml exampleCollaborators init documentA).getD init

/-- A `FILTER` record of the plugin `gain`, uid 1, saved at the position (5, -3). -/
def farAwayRecord : XmlElement :=
  XmlElement.mk "FILTER"
    [("uid", XmlValue.int 1), ("x", XmlValue.real 5), ("y", XmlValue.real (-3))]
    [gainDescription.createXml] ""

/-- An editing call that removes no node. -/
inductive Edit where
  | addFilter (desc : Option PluginDescription) (x y : ℚ)
  | addConnection (src : Nat) (srcCh : Int) (dst : Nat) (dstCh : Int)
  | removeConnectionAt (index : Int)
  | removeConnection (src : Nat) (srcCh : Int) (dst : Nat) (dstCh : Int)
  | disconnectFilter (id : Nat)
  | removeIllegalConnections
  | setNodePosition (nodeId : Int) (x y : ℚ)

/-- The state after an editing call. -/
def applyEdit (c : Collaborators) (s : FilterGraph) : Edit → FilterGraph
  | Edit.addFilter desc x y => addFilter c s desc x y
  | Edit.addConnection src srcCh dst dstCh => (s.addConnection src srcCh dst dstCh).2
  | Edit.removeConnectionAt index => s.removeConnectionAt index
  | Edit.removeConnection src srcCh dst dstCh => s.removeConnection src srcCh dst dstCh
  | Edit.disconnectFilter id => s.disconnectFilter id
  | Edit.removeIllegalConnections => s.removeIllegalConnections
  | Edit.setNodePosition nodeId x y => s.setNodePosition nodeId x y

/-- Each registered listener carries the id of a node currently in the graph. -/
def listenersHaveNodes (s : FilterGraph) : Prop :=
  ∀ l ∈ s.audioProcessorListeners, l.nodeId ∈ s.graph.nodes.map (fun n => n.nodeId)

/-- Example descriptors of the other four backend kinds: the internal plugin `gain`, a Cabbage
instrument, the sound-file player and the automation track. -/
def internalGainDescription : PluginDescription :=
  { name := "gain", pluginFormatName := "Internal", numInputChannels := 2, numOutputChannels := 2 }

/-- Example descriptor of a Cabbage instrument. -/
def cabbageDescription : PluginDescription :=
  { name := "synth", pluginFormatName := "Cabbage", fileOrIdentifier := "synth.csd" }

/-- Example descriptor of the sound-file player. -/
def soundfileDescription : PluginDescription :=
  { name := "Soundfile Player", pluginFormatName := "SoundfilePlayer",
    fileOrIdentifier := "loop.wav" }

/-- Example descriptor of the automation track. -/
def automationDescription : PluginDescription :=
  { name := "AutomationTrack", pluginFormatName := "AutomationTrack" }

/-- A document with one node of each backend kind, three connections and two MIDI mappings,
reached through the public calls: a file holding the two mappings is loaded into a new
document, then the five nodes are added and connected. -/
def mixedDocument : FilterGraph :=
  let s0 := (restoreFromXml exampleCollaborators init
    (XmlElement.mk "FILTERGRAPH" []
      [createMappingXml ⟨1, 0, 1, 7⟩, createMappingXml ⟨3, 2, 1, 8⟩] "")).getD init
  let s1 := addFilter exampleCollaborators s0 (some gainDescription) 0 0
  let s2 := addFilter exampleCollaborators s1 (some internalGainDescription) 0 0
  let s3 := addFilter exampleCollaborators s2 (some cabbageDescription) 0 0
  let s4 := addFilter exampleCollaborators s3 (some soundfileDescription) 0 0
  let s5 := addFilter exampleCollaborators s4 (some automationDescription) 0 0
  let s6 := (s5.addConnection 1 0 2 0).2
  let s7 := (s6.addConnection 2 1 3 1).2
  (s7.addConnection 4 0 5 0).2

end FilterGraph

end Host

/-! ## Theorems -/

namespace Host

open FilterGraph

/-! ### Serializer round trip (C1) -/

theorem toUInt32_toInt32 (n : Nat) (h : n < 4294967296) : toUInt32 (toInt32 n) = n := by
  unfold toUInt32 toInt32
  split <;> omega

theorem toInt32_ne_neg_one (n : Nat) (h : n < 4294967295) : toInt32 n ≠ -1 := by
  unfold toInt32
  split <;> omega

theorem loadFromXml_createXml (d : PluginDescription) :
    PluginDescription.loadFromXml d.createXml = some d := rfl

theorem createNodeXml_eq {n : Node} {e : XmlElement} (he : createNodeXml n = some e) :
    ∃ pd, describeNode n = some pd ∧
      e = XmlElement.mk "FILTER"
        [("uid", XmlValue.int (toInt32 n.nodeId)),
         ("x", propertyText (n.properties.x.map XmlValue.real)),
         ("y", propertyText (n.properties.y.map XmlValue.real)),
         ("uiLastX", propertyText (n.properties.uiLastX.map XmlValue.int)),
         ("uiLastY", propertyText (n.properties.uiLastY.map XmlValue.int))]
        [pd.createXml, XmlElement.mk "STATE" [] [] n.processor.getStateInformation] "" := by
  unfold createNodeXml at he
  cases h : describeNode n with
  | none => simp [h] at he
  | some pd =>
    simp only [h, Option.some.injEq] at he
    exact ⟨pd, rfl, he.symm⟩

theorem createNodeXml_uid {n : Node} {e : XmlElement} (he : createNodeXml n = some e) :
    e.getIntAttribute "uid" = toInt32 n.nodeId ∧ e.hasTagName "FILTER" = true := by
  obtain ⟨pd, -, rfl⟩ := createNodeXml_eq he
  exact ⟨rfl, rfl⟩

theorem createNode_node_indep (c : Collaborators) (t t0 : FilterGraph) (desc : PluginDescription)
    (uid : Int) (h : uid ≠ -1) : (createNode c t desc uid).1 = (createNode c t0 desc uid).1 := by
  unfold createNode
  split_ifs
  · simp [addNodeFor, h, AudioProcessorGraph.addNodeWithId]
  · simp [addNodeFor, h, AudioProcessorGraph.addNodeWithId]
  · cases c.createPluginInstance desc <;> simp [addNodeFor, h, AudioProcessorGraph.addNodeWithId]
  · simp [addNodeFor, h, AudioProcessorGraph.addNodeWithId]
  · simp [addNodeFor, h, AudioProcessorGraph.addNodeWithId]

theorem createNode_graph (c : Collaborators) (t : FilterGraph) (desc : PluginDescription)
    (uid : Int) (h : uid ≠ -1) (node : Node) (hn : (createNode c t desc uid).1 = some node) :
    node.nodeId = toUInt32 uid ∧
    (createNode c t desc uid).2.graph.nodes =
      (t.graph.removeNode (toUInt32 uid)).2.nodes ++ [node] ∧
    (createNode c t desc uid).2.graph.connections =
      (t.graph.removeNode (toUInt32 uid)).2.connections ∧
    (createNode c t desc uid).2.midiMappings = t.midiMappings := by
  unfold createNode at hn ⊢
  split_ifs at hn ⊢
  · simp [addNodeFor, h, AudioProcessorGraph.addNodeWithId, AudioProcessorGraph.setNode] at hn ⊢
    subst hn
    simp
  · simp [addNodeFor, h, AudioProcessorGraph.addNodeWithId, AudioProcessorGraph.setNode] at hn ⊢
    subst hn
    simp
  · cases hc : c.createPluginInstance desc with
    | none => simp [hc] at hn
    | some inst =>
      simp [hc, addNodeFor, h, AudioProcessorGraph.addNodeWithId, AudioProcessorGraph.setNode] at hn ⊢
      subst hn
      simp
  · simp [addNodeFor, h, AudioProcessorGraph.addNodeWithId, AudioProcessorGraph.setNode] at hn ⊢
    subst hn
    simp
  · simp [addNodeFor, h, AudioProcessorGraph.addNodeWithId, AudioProcessorGraph.setNode] at hn ⊢
    subst hn
    simp

theorem createNodeFromXml_record (c : Collaborators) (t : FilterGraph) (n : Node)
    (e : XmlElement) (he : createNodeXml n = some e) (hid : n.nodeId < 4294967295)
    (hr : canReinstantiate c n = true) :
    ∃ r n1, createNodeFromXml c t e = some r ∧ sameShape n1 n ∧
      r.graph.nodes = (t.graph.removeNode n.nodeId).2.nodes ++ [n1] ∧
      r.graph.connections = (t.graph.removeNode n.nodeId).2.connections ∧
      r.midiMappings = t.midiMappings := by
  have huid := (createNodeXml_uid he).1
  have hne : e.getIntAttribute "uid" ≠ -1 := by
    rw [huid]; exact toInt32_ne_neg_one _ hid
  have hback : toUInt32 (e.getIntAttribute "uid") = n.nodeId := by
    rw [huid]; exact toUInt32_toInt32 _ (by omega)
  unfold canReinstantiate at hr
  rw [he] at hr
  simp only at hr
  generalize ht0 : ({} : FilterGraph) = t0 at hr
  have hindep := createNode_node_indep c t t0
    ((e.children.findSome? PluginDescription.loadFromXml).getD {}) _ hne
  have hg := createNode_graph c t
    ((e.children.findSome? PluginDescription.loadFromXml).getD {}) _ hne
  have hg0 := createNode_graph c t0
    ((e.children.findSome? PluginDescription.loadFromXml).getD {}) _ hne
  unfold createNodeFromXml at hr ⊢
  simp only at hr ⊢
  rcases hc0 : createNode c t0 ((e.children.findSome? PluginDescription.loadFromXml).getD {})
    (e.getIntAttribute "uid") with ⟨node0, s0⟩
  rcases hct : createNode c t ((e.children.findSome? PluginDescription.loadFromXml).getD {})
    (e.getIntAttribute "uid") with ⟨node1, s1⟩
  rw [hc0] at hr hindep hg0
  rw [hct] at hindep hg
  simp only at hindep hg hg0
  subst hindep
  cases node1 with
  | none => simp at hr
  | some node =>
    obtain ⟨hid1, hn1, hc1, hm1⟩ := hg node rfl
    obtain ⟨-, hn0, -, -⟩ := hg0 node rfl
    simp only [AudioProcessorGraph.setNode, hn0, hn1, hc1, hm1, List.dropLast_concat,
      List.getLast?_concat, hback] at hr ⊢
    refine ⟨_, _, rfl, ⟨?_, ?_, ?_⟩, rfl, rfl, rfl⟩
    · simp only []
      split <;> simp [hid1, hback]
    · simp only [Bool.and_eq_true, decide_eq_true_eq] at hr
      exact hr.1
    · simp only [Bool.and_eq_true, decide_eq_true_eq] at hr
      exact hr.2

theorem createNodesXml_forall {ns : List Node} {es : List XmlElement}
    (h : createNodesXml ns = some es) :
    List.Forall₂ (fun n e => createNodeXml n = some e) ns es := by
  induction ns generalizing es with
  | nil =>
    simp [createNodesXml] at h
    subst h
    exact List.Forall₂.nil
  | cons n ns ih =>
    unfold createNodesXml at h
    cases hn : createNodeXml n with
    | none => simp [hn] at h
    | some e =>
      cases hns : createNodesXml ns with
      | none => simp [hn, hns] at h
      | some es1 =>
        simp [hn, hns] at h
        subst h
        exact List.Forall₂.cons hn (ih hns)

theorem find_sameShape {l1 l2 : List Node} (h : List.Forall₂ sameShape l1 l2) (x : Nat) :
    (l1.find? (fun n => n.nodeId == x) = none ∧ l2.find? (fun n => n.nodeId == x) = none) ∨
    ∃ a b, l1.find? (fun n => n.nodeId == x) = some a ∧
      l2.find? (fun n => n.nodeId == x) = some b ∧ sameShape a b := by
  induction h with
  | nil => left; simp
  | @cons a b l1 l2 hab _ ih =>
    by_cases hx : a.nodeId = x
    · right
      have hb : b.nodeId = x := by rw [← hab.1]; exact hx
      exact ⟨a, b, List.find?_cons_of_pos _ (by simpa using hx),
        List.find?_cons_of_pos _ (by simpa using hb), hab⟩
    · have hb : ¬ b.nodeId = x := by rw [← hab.1]; exact hx
      rw [List.find?_cons_of_neg _ (by simpa using hx),
        List.find?_cons_of_neg _ (by simpa using hb)]
      exact ih

theorem endpointsValid_congr {g1 g2 : AudioProcessorGraph}
    (h : List.Forall₂ sameShape g1.nodes g2.nodes) (src : Nat) (srcCh : Int) (dst : Nat)
    (dstCh : Int) :
    g1.endpointsValid src srcCh dst dstCh = g2.endpointsValid src srcCh dst dstCh := by
  unfold AudioProcessorGraph.endpointsValid AudioProcessorGraph.getNodeForId
  rcases find_sameShape h src with ⟨h1, h2⟩ | ⟨a, b, h1, h2, hab⟩ <;>
  rcases find_sameShape h dst with ⟨h3, h4⟩ | ⟨a2, b2, h3, h4, hab2⟩ <;>
  simp [h1, h2, h3, h4]
  rw [hab.2.2, hab2.2.1]

theorem endpointsValid_lt {g : AudioProcessorGraph} {src dst : Nat} {srcCh dstCh : Int}
    (hn : ∀ n ∈ g.nodes, n.nodeId < 4294967296)
    (h : g.endpointsValid src srcCh dst dstCh = true) : src < 4294967296 ∧ dst < 4294967296 := by
  unfold AudioProcessorGraph.endpointsValid AudioProcessorGraph.getNodeForId at h
  cases h1 : g.nodes.find? (fun n => n.nodeId == src) with
  | none => simp [h1] at h
  | some a =>
    cases h2 : g.nodes.find? (fun n => n.nodeId == dst) with
    | none => simp [h1, h2] at h
    | some b =>
      have ha := List.find?_some h1
      have hb := List.find?_some h2
      have ha2 := hn a (List.mem_of_find?_eq_some h1)
      have hb2 := hn b (List.mem_of_find?_eq_some h2)
      simp at ha hb
      omega

theorem removeNode_absent (g : AudioProcessorGraph) (id : Nat)
    (h : ∀ p ∈ g.nodes, p.nodeId ≠ id) (hc : g.connections = []) :
    (g.removeNode id).2.nodes = g.nodes ∧ (g.removeNode id).2.connections = [] := by
  unfold AudioProcessorGraph.removeNode AudioProcessorGraph.disconnectNode
  simp only [hc, List.filter_nil, and_true]
  rw [List.filter_eq_self]
  intro a ha
  simpa using h a ha

theorem restore_nodes (c : Collaborators) (ns : List Node) (es : List XmlElement)
    (hes : List.Forall₂ (fun n e => createNodeXml n = some e) ns es) :
    ∀ (t : FilterGraph) (P : List Node),
    (∀ n ∈ ns, n.nodeId < 4294967295) → (∀ n ∈ ns, canReinstantiate c n = true) →
    (ns.map (fun n => n.nodeId)).Nodup →
    (∀ n ∈ ns, ∀ p ∈ t.graph.nodes, p.nodeId ≠ n.nodeId) →
    t.graph.connections = [] → List.Forall₂ sameShape t.graph.nodes P →
    ∃ r, es.foldlM (fun t e => (createNodeFromXml c t e).map changed) t = some r ∧
      List.Forall₂ sameShape r.graph.nodes (P ++ ns) ∧ r.graph.connections = [] ∧
      r.midiMappings = t.midiMappings := by
  induction hes with
  | nil =>
    intro t P _ _ _ _ hc hP
    exact ⟨t, rfl, by simpa using hP, hc, rfl⟩
  | @cons n e ns es hne _ ih =>
    intro t P hid hre hnd hfresh hc hP
    obtain ⟨r1, n1, hr1, hshape, hnodes, hconn, hmap⟩ :=
      createNodeFromXml_record c t n e hne (hid n (List.mem_cons_self _ _))
        (hre n (List.mem_cons_self _ _))
    obtain ⟨hrn, hrc⟩ := removeNode_absent t.graph n.nodeId
      (hfresh n (List.mem_cons_self _ _)) hc
    rw [hrn] at hnodes
    rw [hrc] at hconn
    rw [List.map_cons, List.nodup_cons] at hnd
    obtain ⟨r, hr, hsh, hrc2, hrm⟩ := ih (changed r1) (P ++ [n])
      (fun m hm => hid m (List.mem_cons_of_mem _ hm))
      (fun m hm => hre m (List.mem_cons_of_mem _ hm)) hnd.2
      (by
        intro m hm p hp
        simp only [changed, hnodes, List.mem_append, List.mem_singleton] at hp
        rcases hp with hp | hp
        · exact hfresh m (List.mem_cons_of_mem _ hm) p hp
        · subst hp
          rw [hshape.1]
          intro heq
          exact hnd.1 (heq ▸ List.mem_map_of_mem (fun n => n.nodeId) hm))
      (by simpa [changed] using hconn)
      (by
        simp only [changed, hnodes]
        exact List.rel_append hP (List.Forall₂.cons hshape List.Forall₂.nil))
    refine ⟨r, ?_, ?_, hrc2, ?_⟩
    · rw [List.foldlM_cons, hr1]
      exact hr
    · simpa using hsh
    · rw [hrm]
      simpa [changed] using hmap

theorem restore_connections (C2 : List Connection) :
    ∀ (t : FilterGraph) (C1 : List Connection), t.graph.connections = C1 →
    (C1 ++ C2).Nodup →
    (∀ fc ∈ C2, t.graph.endpointsValid fc.sourceNodeId fc.sourceChannelIndex fc.destNodeId
      fc.destChannelIndex = true ∧ fc.sourceNodeId < 4294967296 ∧ fc.destNodeId < 4294967296) →
    ((C2.map createConnectionXml).foldl
      (fun t e =>
        (t.addConnection (toUInt32 (e.getIntAttribute "srcFilter"))
          (e.getIntAttribute "srcChannel") (toUInt32 (e.getIntAttribute "dstFilter"))
          (e.getIntAttribute "dstChannel")).2) t).graph.connections = C1 ++ C2 ∧
    ((C2.map createConnectionXml).foldl
      (fun t e =>
        (t.addConnection (toUInt32 (e.getIntAttribute "srcFilter"))
          (e.getIntAttribute "srcChannel") (toUInt32 (e.getIntAttribute "dstFilter"))
          (e.getIntAttribute "dstChannel")).2) t).graph.nodes = t.graph.nodes ∧
    ((C2.map createConnectionXml).foldl
      (fun t e =>
        (t.addConnection (toUInt32 (e.getIntAttribute "srcFilter"))
          (e.getIntAttribute "srcChannel") (toUInt32 (e.getIntAttribute "dstFilter"))
          (e.getIntAttribute "dstChannel")).2) t).midiMappings = t.midiMappings := by
  induction C2 with
  | nil =>
    intro t C1 h _ _
    simp [h]
  | cons fc C2 ih =>
    intro t C1 h hnd hv
    obtain ⟨hval, hs, hd⟩ := hv fc (List.mem_cons_self _ _)
    have hnotin : fc ∉ C1 := by
      intro hmem
      have := List.nodup_append.1 hnd
      exact this.2.2 hmem (List.mem_cons_self _ _)
    have hstep : (t.addConnection (toUInt32 ((createConnectionXml fc).getIntAttribute "srcFilter"))
          ((createConnectionXml fc).getIntAttribute "srcChannel")
          (toUInt32 ((createConnectionXml fc).getIntAttribute "dstFilter"))
          ((createConnectionXml fc).getIntAttribute "dstChannel")).2 =
        changed { t with graph := { t.graph with connections := C1 ++ [fc] } } := by
      have e1 : (createConnectionXml fc).getIntAttribute "srcFilter" = toInt32 fc.sourceNodeId := rfl
      have e2 : (createConnectionXml fc).getIntAttribute "srcChannel" = fc.sourceChannelIndex := rfl
      have e3 : (createConnectionXml fc).getIntAttribute "dstFilter" = toInt32 fc.destNodeId := rfl
      have e4 : (createConnectionXml fc).getIntAttribute "dstChannel" = fc.destChannelIndex := rfl
      rw [e1, e2, e3, e4, toUInt32_toInt32 _ hs, toUInt32_toInt32 _ hd]
      have hcan : t.graph.canConnect fc.sourceNodeId fc.sourceChannelIndex fc.destNodeId
          fc.destChannelIndex = true := by
        unfold AudioProcessorGraph.canConnect AudioProcessorGraph.getConnectionBetween
        rw [hval, h]
        simp only [Bool.true_and, Option.isNone_iff_eq_none, List.find?_eq_none]
        intro x hx hxe
        have : x = fc := by simpa using hxe
        exact hnotin (this ▸ hx)
      simp [FilterGraph.addConnection, AudioProcessorGraph.addConnection, hcan, h]
    rw [List.map_cons, List.foldl_cons, hstep]
    have := ih (changed { t with graph := { t.graph with connections := C1 ++ [fc] } })
      (C1 ++ [fc]) rfl (by simpa using hnd)
      (fun x hx => by
        have := hv x (List.mem_cons_of_mem _ hx)
        simpa [changed, AudioProcessorGraph.endpointsValid, AudioProcessorGraph.getNodeForId]
          using this)
    simpa [changed] using this

theorem restore_mappings (ms : List CabbageMidiMapping) :
    ∀ (t : FilterGraph),
    ((ms.map createMappingXml).foldl
      (fun (t : FilterGraph) e =>
        { t with
          midiMappings := t.midiMappings ++
            [⟨e.getIntAttribute "NodeId", e.getIntAttribute "ParameterIndex",
              e.getIntAttribute "Channel", e.getIntAttribute "Controller"⟩] }) t) =
      { t with midiMappings := t.midiMappings ++ ms } := by
  induction ms with
  | nil => intro t; simp
  | cons m ms ih =>
    intro t
    rw [List.map_cons, List.foldl_cons, ih]
    have e1 : (createMappingXml m).getIntAttribute "NodeId" = m.nodeId := rfl
    have e2 : (createMappingXml m).getIntAttribute "ParameterIndex" = m.parameterIndex := rfl
    have e3 : (createMappingXml m).getIntAttribute "Channel" = m.channel := rfl
    have e4 : (createMappingXml m).getIntAttribute "Controller" = m.controller := rfl
    simp [e1, e2, e3, e4]

theorem childrenWithTagName_document (F : List XmlElement) (cs : List Connection)
    (ms : List CabbageMidiMapping) (hF : ∀ f ∈ F, f.tagName = "FILTER") :
    (XmlElement.mk "FILTERGRAPH" [] (F ++ cs.map createConnectionXml ++ ms.map createMappingXml)
      "").childrenWithTagName "FILTER" = F ∧
    (XmlElement.mk "FILTERGRAPH" [] (F ++ cs.map createConnectionXml ++ ms.map createMappingXml)
      "").childrenWithTagName "CONNECTION" = cs.map createConnectionXml ∧
    (XmlElement.mk "FILTERGRAPH" [] (F ++ cs.map createConnectionXml ++ ms.map createMappingXml)
      "").childrenWithTagName "MIDI_MAPPINGS" = ms.map createMappingXml := by
  have hc : ∀ t : String, ∀ x ∈ cs.map createConnectionXml, x.hasTagName t = ("CONNECTION" == t) := by
    intro t x hx
    obtain ⟨fc, -, rfl⟩ := List.mem_map.1 hx
    rfl
  have hm : ∀ t : String, ∀ x ∈ ms.map createMappingXml, x.hasTagName t = ("MIDI_MAPPINGS" == t) := by
    intro t x hx
    obtain ⟨fc, -, rfl⟩ := List.mem_map.1 hx
    rfl
  have hf : ∀ t : String, ∀ x ∈ F, x.hasTagName t = ("FILTER" == t) := by
    intro t x hx
    unfold XmlElement.hasTagName
    rw [hF x hx]
  simp only [XmlElement.childrenWithTagName, XmlElement.children, List.filter_append]
  refine ⟨?_, ?_, ?_⟩
  · rw [List.filter_eq_self.2 (fun x hx => by rw [hf _ x hx]; decide),
      List.filter_eq_nil_iff.2 (fun x hx => by rw [hc _ x hx]; decide),
      List.filter_eq_nil_iff.2 (fun x hx => by rw [hm _ x hx]; decide)]
    simp
  · rw [List.filter_eq_nil_iff.2 (fun x hx => by rw [hf _ x hx]; decide),
      List.filter_eq_self.2 (fun x hx => by rw [hc _ x hx]; decide),
      List.filter_eq_nil_iff.2 (fun x hx => by rw [hm _ x hx]; decide)]
    simp
  · rw [List.filter_eq_nil_iff.2 (fun x hx => by rw [hf _ x hx]; decide),
      List.filter_eq_nil_iff.2 (fun x hx => by rw [hc _ x hx]; decide),
      List.filter_eq_self.2 (fun x hx => by rw [hm _ x hx]; decide)]
    simp

theorem createNodesXml_some (c : Collaborators) (ns : List Node)
    (h : ∀ n ∈ ns, canReinstantiate c n = true) : ∃ es, createNodesXml ns = some es := by
  induction ns with
  | nil => exact ⟨[], rfl⟩
  | cons n ns ih =>
    obtain ⟨es, hes⟩ := ih (fun m hm => h m (List.mem_cons_of_mem _ hm))
    have hn := h n (List.mem_cons_self _ _)
    unfold canReinstantiate at hn
    cases he : createNodeXml n with
    | none => simp [he] at hn
    | some e => exact ⟨e :: es, by simp [createNodesXml, he, hes]⟩

theorem forall₂_right_mem {l1 : List Node} {l2 : List XmlElement}
    (h : List.Forall₂ (fun n e => createNodeXml n = some e) l1 l2) :
    ∀ f ∈ l2, ∃ n, createNodeXml n = some f := by
  induction h with
  | nil => intro f hf; simp at hf
  | @cons a b l1 l2 hab _ ih =>
    intro f hf
    rcases List.mem_cons.1 hf with rfl | hf
    · exact ⟨a, hab⟩
    · exact ih f hf

theorem sameShape_ids {l1 l2 : List Node} (h : List.Forall₂ sameShape l1 l2) :
    l1.map (fun n => n.nodeId) = l2.map (fun n => n.nodeId) := by
  induction h with
  | nil => rfl
  | cons hab _ ih => simp [hab.1, ih]

theorem addNodeFor_fst (g : AudioProcessorGraph) (p : AudioProcessor) (uid : Int) :
    ∃ id, (addNodeFor g p uid).1 = { nodeId := id, processor := p } := by
  unfold addNodeFor
  split
  · exact ⟨_, rfl⟩
  · exact ⟨_, rfl⟩

theorem describeNode_createNode (c : Collaborators)
    (hc : ∀ d inst, c.createPluginInstance d = some inst → inst.description = d)
    (s : FilterGraph) (d : PluginDescription) (uid : Int) (node : Node)
    (hn : (createNode c s d uid).1 = some node)
    (hl : d.pluginFormatName = "AutomationTrack" ∨ d.pluginFormatName = "SoundfilePlayer" ∨
      d.pluginFormatName = "Cabbage" ∨ (c.createPluginInstance d).isSome = true) :
    describeNode node = some d := by
  unfold createNode at hn
  split_ifs at hn with h1 h2 h3 h4
  · obtain ⟨id, hid⟩ := addNodeFor_fst s.graph
      (AudioProcessor.setPlayConfigDetails { kind := ProcessorKind.AutomationProcessor } 2 2) uid
    simp only [hid, Option.some.injEq] at hn
    subst hn
    rfl
  · obtain ⟨id, hid⟩ := addNodeFor_fst s.graph
      (AudioProcessor.setPlayConfigDetails
        { kind := ProcessorKind.AudioFilePlaybackProcessor, file := d.fileOrIdentifier } 2 2) uid
    simp only [hid, Option.some.injEq] at hn
    subst hn
    rfl
  · cases hi : c.createPluginInstance d with
    | none => simp [hi] at hn
    | some inst =>
      obtain ⟨id, hid⟩ := addNodeFor_fst s.graph
        { kind := ProcessorKind.AudioPluginInstance
          numInputChannels := inst.numInputChannels
          numOutputChannels := inst.numOutputChannels
          plugin := some inst
          name := inst.description.name
          state := inst.state } uid
      simp only [hi, hid, Option.some.injEq] at hn
      subst hn
      simp only [describeNode, AudioProcessor.fillInPluginDescription, Option.map_some',
        hc d inst hi]
  · obtain ⟨id, hid⟩ := addNodeFor_fst s.graph
      (AudioProcessor.setPlayConfigDetails
        { kind := ProcessorKind.CabbagePluginAudioProcessor
          file := d.fileOrIdentifier
          name := c.getPluginName d.fileOrIdentifier }
        (c.getNchnlsFromFile d.fileOrIdentifier) (c.getNchnlsFromFile d.fileOrIdentifier)) uid
    simp only [hid, Option.some.injEq] at hn
    subst hn
    rfl
  · have hsome : (c.createPluginInstance d).isSome = true := by
      rcases hl with h | h | h | h
      · exact absurd h h1
      · exact absurd h h2
      · exact absurd h h4
      · exact h
    obtain ⟨inst, hi⟩ := Option.isSome_iff_exists.1 hsome
    obtain ⟨id, hid⟩ := addNodeFor_fst s.graph
      { AudioProcessor.setPlayConfigDetails
          { kind := ProcessorKind.PluginWrapper, plugin := c.createPluginInstance d }
          d.numInputChannels d.numOutputChannels with
        name := d.name } uid
    simp only [hid, Option.some.injEq] at hn
    subst hn
    simp only [describeNode, AudioProcessor.fillInPluginDescription,
      AudioProcessor.setPlayConfigDetails, AudioProcessor.setPlayHead, hi, Option.map_some',
      hc d inst hi]

theorem createNode_channels_indep (c : Collaborators) (s t : FilterGraph)
    (d : PluginDescription) (uid uid2 : Int) (node : Node)
    (hn : (createNode c s d uid).1 = some node) :
    ∃ node2, (createNode c t d uid2).1 = some node2 ∧
      node2.processor.numInputChannels = node.processor.numInputChannels ∧
      node2.processor.numOutputChannels = node.processor.numOutputChannels := by
  unfold createNode at hn ⊢
  split_ifs at hn ⊢ with h1 h2 h3 h4
  · obtain ⟨id, hid⟩ := addNodeFor_fst s.graph
      (AudioProcessor.setPlayConfigDetails { kind := ProcessorKind.AutomationProcessor } 2 2) uid
    obtain ⟨id2, hid2⟩ := addNodeFor_fst t.graph
      (AudioProcessor.setPlayConfigDetails { kind := ProcessorKind.AutomationProcessor } 2 2) uid2
    simp only [hid, Option.some.injEq] at hn
    subst hn
    exact ⟨_, rfl, by simp only [hid2], by simp only [hid2]⟩
  · obtain ⟨id, hid⟩ := addNodeFor_fst s.graph
      (AudioProcessor.setPlayConfigDetails
        { kind := ProcessorKind.AudioFilePlaybackProcessor, file := d.fileOrIdentifier } 2 2) uid
    obtain ⟨id2, hid2⟩ := addNodeFor_fst t.graph
      (AudioProcessor.setPlayConfigDetails
        { kind := ProcessorKind.AudioFilePlaybackProcessor, file := d.fileOrIdentifier } 2 2) uid2
    simp only [hid, Option.some.injEq] at hn
    subst hn
    exact ⟨_, rfl, by simp only [hid2], by simp only [hid2]⟩
  · cases hi : c.createPluginInstance d with
    | none => simp [hi] at hn
    | some inst =>
      obtain ⟨id, hid⟩ := addNodeFor_fst s.graph
        { kind := ProcessorKind.AudioPluginInstance
          numInputChannels := inst.numInputChannels
          numOutputChannels := inst.numOutputChannels
          plugin := some inst
          name := inst.description.name
          state := inst.state } uid
      obtain ⟨id2, hid2⟩ := addNodeFor_fst t.graph
        { kind := ProcessorKind.AudioPluginInstance
          numInputChannels := inst.numInputChannels
          numOutputChannels := inst.numOutputChannels
          plugin := some inst
          name := inst.description.name
          state := inst.state } uid2
      simp only [hi, hid, Option.some.injEq] at hn
      subst hn
      exact ⟨_, rfl, by simp only [hid2], by simp only [hid2]⟩
  · obtain ⟨id, hid⟩ := addNodeFor_fst s.graph
      (AudioProcessor.setPlayConfigDetails
        { kind := ProcessorKind.CabbagePluginAudioProcessor
          file := d.fileOrIdentifier
          name := c.getPluginName d.fileOrIdentifier }
        (c.getNchnlsFromFile d.fileOrIdentifier) (c.getNchnlsFromFile d.fileOrIdentifier)) uid
    obtain ⟨id2, hid2⟩ := addNodeFor_fst t.graph
      (AudioProcessor.setPlayConfigDetails
        { kind := ProcessorKind.CabbagePluginAudioProcessor
          file := d.fileOrIdentifier
          name := c.getPluginName d.fileOrIdentifier }
        (c.getNchnlsFromFile d.fileOrIdentifier) (c.getNchnlsFromFile d.fileOrIdentifier)) uid2
    simp only [hid, Option.some.injEq] at hn
    subst hn
    exact ⟨_, rfl, by simp only [hid2], by simp only [hid2]⟩
  · obtain ⟨id, hid⟩ := addNodeFor_fst s.graph
      { AudioProcessor.setPlayConfigDetails
          { kind := ProcessorKind.PluginWrapper, plugin := c.createPluginInstance d }
          d.numInputChannels d.numOutputChannels with
        name := d.name } uid
    obtain ⟨id2, hid2⟩ := addNodeFor_fst t.graph
      { AudioProcessor.setPlayConfigDetails
          { kind := ProcessorKind.PluginWrapper, plugin := c.createPluginInstance d }
          d.numInputChannels d.numOutputChannels with
        name := d.name } uid2
    simp only [hid, Option.some.injEq] at hn
    subst hn
    exact ⟨_, rfl, by simp only [hid2], by simp only [hid2]⟩

theorem canReinstantiate_of_describeNode (c : Collaborators) (n : Node)
    (d : PluginDescription) (s : FilterGraph) (uid : Int) (node : Node)
    (hd : describeNode n = some d) (hn : (createNode c s d uid).1 = some node)
    (hin : node.processor.numInputChannels = n.processor.numInputChannels)
    (hout : node.processor.numOutputChannels = n.processor.numOutputChannels) :
    canReinstantiate c n = true := by
  obtain ⟨node2, hn2, hin2, hout2⟩ :=
    createNode_channels_indep c s {} d uid (toInt32 n.nodeId) node hn
  unfold canReinstantiate createNodeXml
  simp only [hd]
  unfold createNodeFromXml
  have hdesc : ((XmlElement.mk "FILTER"
      [("uid", XmlValue.int (toInt32 n.nodeId)),
       ("x", propertyText (n.properties.x.map XmlValue.real)),
       ("y", propertyText (n.properties.y.map XmlValue.real)),
       ("uiLastX", propertyText (n.properties.uiLastX.map XmlValue.int)),
       ("uiLastY", propertyText (n.properties.uiLastY.map XmlValue.int))]
      [d.createXml, XmlElement.mk "STATE" [] [] n.processor.getStateInformation]
      "").children.findSome? PluginDescription.loadFromXml).getD {} = d := by
    simp [XmlElement.children, List.findSome?, loadFromXml_createXml]
  have huid : (XmlElement.mk "FILTER"
      [("uid", XmlValue.int (toInt32 n.nodeId)),
       ("x", propertyText (n.properties.x.map XmlValue.real)),
       ("y", propertyText (n.properties.y.map XmlValue.real)),
       ("uiLastX", propertyText (n.properties.uiLastX.map XmlValue.int)),
       ("uiLastY", propertyText (n.properties.uiLastY.map XmlValue.int))]
      [d.createXml, XmlElement.mk "STATE" [] [] n.processor.getStateInformation]
      "").getIntAttribute "uid" = toInt32 n.nodeId := rfl
  simp only [hdesc, huid]
  rcases hct : createNode c {} d (toInt32 n.nodeId) with ⟨n0, s0⟩
  rw [hct] at hn2
  simp only at hn2
  subst hn2
  simp only [AudioProcessorGraph.setNode, List.getLast?_concat]
  simp only [Bool.and_eq_true, decide_eq_true_eq]
  constructor
  · rw [← hin, ← hin2]
    split <;> rfl
  · rw [← hout, ← hout2]
    split <;> rfl

theorem canReinstantiate_createNode (c : Collaborators)
    (hc : ∀ d inst, c.createPluginInstance d = some inst → inst.description = d)
    (s : FilterGraph) (d : PluginDescription) (uid : Int) (node : Node)
    (hn : (createNode c s d uid).1 = some node)
    (hl : d.pluginFormatName = "AutomationTrack" ∨ d.pluginFormatName = "SoundfilePlayer" ∨
      d.pluginFormatName = "Cabbage" ∨ (c.createPluginInstance d).isSome = true) :
    canReinstantiate c node = true :=
  canReinstantiate_of_describeNode c node d s uid node
    (describeNode_createNode c hc s d uid node hn hl) hn rfl rfl

theorem canReinstantiate_addFilter (c : Collaborators)
    (hc : ∀ d inst, c.createPluginInstance d = some inst → inst.description = d)
    (s : FilterGraph) (d : PluginDescription) (x y : ℚ) (node : Node)
    (hn : (createNode c s d (-1)).1 = some node)
    (hl : d.pluginFormatName = "AutomationTrack" ∨ d.pluginFormatName = "SoundfilePlayer" ∨
      d.pluginFormatName = "Cabbage" ∨ (c.createPluginInstance d).isSome = true) :
    (addFilter c s (some d) x y).graph.nodes.getLast? =
      some { node with properties := { node.properties with x := some x, y := some y } } ∧
    canReinstantiate c
      { node with properties := { node.properties with x := some x, y := some y } } = true := by
  constructor
  · unfold addFilter
    simp only []
    rcases hct : createNode c s d (-1) with ⟨n0, s1⟩
    rw [hct] at hn
    simp only at hn
    subst hn
    exact List.getLast?_concat _
  · exact canReinstantiate_of_describeNode c _ d s (-1) node
      (describeNode_createNode c hc s d (-1) node hn hl) hn rfl rfl

/-- C1 (amended): for every valid document `s` none of whose node ids is `0xFFFFFFFF`,
`createXml` succeeds, and `restoreFromXml` of the result into any document `t` (whose graph it
clears first) succeeds and yields the node ids of `s` in the same order, the connections of
`s`, and the mapping list of `t` followed by the mappings of `s` in order: the mapping list of
`s` itself when `t` holds no mappings, and the mapping set of `s` when `t` is `s` with its
graph cleared. -/
theorem restoreFromXml_createXml (c : Collaborators) (s : FilterGraph)
    (hv : validDocument c s) (hid : ∀ n ∈ s.graph.nodes, n.nodeId ≠ 4294967295) :
    ∃ doc, createXml s = some doc ∧
      ∀ t : FilterGraph, ∃ r, restoreFromXml c t doc = some r ∧
        r.graph.nodes.map (fun n => n.nodeId) = s.graph.nodes.map (fun n => n.nodeId) ∧
        r.graph.connections = s.graph.connections ∧
        r.midiMappings = t.midiMappings ++ s.midiMappings := by
  obtain ⟨hnd, hlt, hcnd, hcv, hre⟩ := hv
  obtain ⟨F, hF⟩ := createNodesXml_some c s.graph.nodes hre
  have hFa := createNodesXml_forall hF
  have hFtag : ∀ f ∈ F, f.tagName = "FILTER" := by
    intro f hf
    obtain ⟨n, hn⟩ := forall₂_right_mem hFa f hf
    have := (createNodeXml_uid hn).2
    simpa [XmlElement.hasTagName] using this
  obtain ⟨hcF, hcC, hcM⟩ := childrenWithTagName_document F s.graph.connections s.midiMappings hFtag
  refine ⟨XmlElement.mk "FILTERGRAPH" []
    (F ++ s.graph.connections.map createConnectionXml ++ s.midiMappings.map createMappingXml) "",
    ?_⟩
  have hx : createXml s = some (XmlElement.mk "FILTERGRAPH" []
    (F ++ s.graph.connections.map createConnectionXml ++ s.midiMappings.map createMappingXml)
    "") := by rw [createXml, hF]
  refine ⟨hx, ?_⟩
  intro t
  obtain ⟨r1, hr1, hsh, hrc, hrm⟩ := restore_nodes c s.graph.nodes F hFa (t.clear) []
    (fun n hn => by have := hlt n hn; have := hid n hn; omega) hre hnd
    (by intro n _ p hp; simp [clear, changed, AudioProcessorGraph.clear] at hp)
    (by simp [clear, changed, AudioProcessorGraph.clear])
    (by simp [clear, changed, AudioProcessorGraph.clear])
  have hsh2 : List.Forall₂ sameShape r1.graph.nodes s.graph.nodes := by simpa using hsh
  have hlt1 : ∀ n ∈ r1.graph.nodes, n.nodeId < 4294967296 := by
    intro n hn
    have hmem : n.nodeId ∈ s.graph.nodes.map (fun n => n.nodeId) := by
      rw [← sameShape_ids hsh2]
      exact List.mem_map_of_mem (fun n => n.nodeId) hn
    obtain ⟨m, hm, hmn⟩ := List.mem_map.1 hmem
    rw [← hmn]
    exact hlt m hm
  have hvalid1 : ∀ fc ∈ s.graph.connections,
      r1.graph.endpointsValid fc.sourceNodeId fc.sourceChannelIndex fc.destNodeId
        fc.destChannelIndex = true := by
    intro fc hfc
    rw [endpointsValid_congr hsh2]
    exact hcv fc hfc
  obtain ⟨hc2, hn2, hm2⟩ := restore_connections s.graph.connections r1 [] hrc
    (by simpa using hcnd)
    (fun fc hfc => ⟨hvalid1 fc hfc, endpointsValid_lt hlt1 (hvalid1 fc hfc)⟩)
  unfold restoreFromXml
  simp only [hcF, hcC, hcM, hr1, restore_mappings]
  refine ⟨_, rfl, ?_, ?_, ?_⟩
  · simp only [AudioProcessorGraph.removeIllegalConnections, hn2]
    exact sameShape_ids hsh2
  · simp only [AudioProcessorGraph.removeIllegalConnections, hc2, List.nil_append]
    rw [List.filter_eq_self]
    intro fc hfc
    have := hvalid1 fc hfc
    simpa [AudioProcessorGraph.endpointsValid, AudioProcessorGraph.getNodeForId, hn2] using this
  · simp only [hm2, hrm, clear, changed]

/-- C1 as stated fails: a valid document reached through `restoreFromXml` and `addFilter` has a
node of id `0xFFFFFFFF`; it is saved as uid `-1` and comes back with the id `0`. -/
theorem restoreFromXml_createXml_loses_last_id :
    validDocument exampleCollaborators lastIdDocument ∧
    lastIdDocument.graph.nodes.map (fun n => n.nodeId) = [4294967295] ∧
    ((createXml lastIdDocument).bind
      (fun doc => restoreFromXml exampleCollaborators lastIdDocument.clear doc)).map
        (fun r => r.graph.nodes.map (fun n => n.nodeId)) = some [0] := by
  refine ⟨by decide, by decide, by decide⟩

set_option maxRecDepth 100000 in
/-- C1 (amended) at concrete documents. The example scenario: nodes 1 and 2 with the connection
(1,0) → (2,0) come back as two nodes and that one connection. A document with one node of each
backend kind, three connections and two mappings: restored into a new document it comes back
with the same node ids, connections and mapping list, and restored into itself with the graph
cleared with the same mapping set. -/
theorem restoreFromXml_createXml_witness :
    validDocument exampleCollaborators exampleDocument ∧
    (∀ n ∈ exampleDocument.graph.nodes, n.nodeId ≠ 4294967295) ∧
    exampleDocument.graph.nodes.map (fun n => n.nodeId) = [1, 2] ∧
    exampleDocument.graph.connections = [⟨1, 0, 2, 0⟩] ∧
    (∃ doc r, createXml exampleDocument = some doc ∧
      restoreFromXml exampleCollaborators exampleDocument.clear doc = some r ∧
      r.graph.nodes.map (fun n => n.nodeId) = [1, 2] ∧
      r.graph.connections = [⟨1, 0, 2, 0⟩]) ∧
    validDocument exampleCollaborators mixedDocument ∧
    (∀ n ∈ mixedDocument.graph.nodes, n.nodeId ≠ 4294967295) ∧
    mixedDocument.graph.nodes.map (fun n => (n.nodeId, n.processor.kind)) =
      [(1, ProcessorKind.PluginWrapper), (2, ProcessorKind.AudioPluginInstance),
       (3, ProcessorKind.CabbagePluginAudioProcessor),
       (4, ProcessorKind.AudioFilePlaybackProcessor), (5, ProcessorKind.AutomationProcessor)] ∧
    mixedDocument.graph.connections = [⟨1, 0, 2, 0⟩, ⟨2, 1, 3, 1⟩, ⟨4, 0, 5, 0⟩] ∧
    mixedDocument.midiMappings = [⟨1, 0, 1, 7⟩, ⟨3, 2, 1, 8⟩] ∧
    init.midiMappings = [] ∧
    (∃ doc, createXml mixedDocument = some doc ∧
      (∃ r, restoreFromXml exampleCollaborators init doc = some r ∧
        r.graph.nodes.map (fun n => n.nodeId) = [1, 2, 3, 4, 5] ∧
        r.graph.connections = [⟨1, 0, 2, 0⟩, ⟨2, 1, 3, 1⟩, ⟨4, 0, 5, 0⟩] ∧
        r.midiMappings = [⟨1, 0, 1, 7⟩, ⟨3, 2, 1, 8⟩]) ∧
      (∃ r, restoreFromXml exampleCollaborators mixedDocument.clear doc = some r ∧
        r.graph.nodes.map (fun n => n.nodeId) = [1, 2, 3, 4, 5] ∧
        r.graph.connections = [⟨1, 0, 2, 0⟩, ⟨2, 1, 3, 1⟩, ⟨4, 0, 5, 0⟩] ∧
        (∀ m, m ∈ r.midiMappings ↔ m ∈ mixedDocument.midiMappings))) := by
  have hv1 : validDocument exampleCollaborators exampleDocument := by decide
  have hi1 : ∀ n ∈ exampleDocument.graph.nodes, n.nodeId ≠ 4294967295 := by decide
  have hn1 : exampleDocument.graph.nodes.map (fun n => n.nodeId) = [1, 2] := by decide
  have hc1 : exampleDocument.graph.connections = [⟨1, 0, 2, 0⟩] := by decide
  have hv2 : validDocument exampleCollaborators mixedDocument := by decide
  have hi2 : ∀ n ∈ mixedDocument.graph.nodes, n.nodeId ≠ 4294967295 := by decide
  have hn2 : mixedDocument.graph.nodes.map (fun n => n.nodeId) = [1, 2, 3, 4, 5] := by decide
  have hc2 : mixedDocument.graph.connections = [⟨1, 0, 2, 0⟩, ⟨2, 1, 3, 1⟩, ⟨4, 0, 5, 0⟩] := by
    decide
  have hm2 : mixedDocument.midiMappings = [⟨1, 0, 1, 7⟩, ⟨3, 2, 1, 8⟩] := by decide
  have h0 : init.midiMappings = [] := by decide
  obtain ⟨doc1, hd1, hall1⟩ :=
    restoreFromXml_createXml exampleCollaborators exampleDocument hv1 hi1
  obtain ⟨r1, hr1, hrn1, hrc1, -⟩ := hall1 exampleDocument.clear
  obtain ⟨doc2, hd2, hall2⟩ :=
    restoreFromXml_createXml exampleCollaborators mixedDocument hv2 hi2
  obtain ⟨r2, hr2, hrn2, hrc2, hrm2⟩ := hall2 mixedDocument.clear
  obtain ⟨r3, hr3, hrn3, hrc3, hrm3⟩ := hall2 init
  refine ⟨hv1, hi1, hn1, hc1, ⟨doc1, r1, hd1, hr1, hrn1.trans hn1, hrc1.trans hc1⟩, hv2, hi2,
    by decide, hc2, hm2, h0, doc2, hd2, ⟨r3, hr3, hrn3.trans hn2, hrc3.trans hc2, ?_⟩,
    ⟨r2, hr2, hrn2.trans hn2, hrc2.trans hc2, ?_⟩⟩
  · rw [hrm3, h0, List.nil_append, hm2]
  · intro m
    rw [hrm2]
    simp only [clear, changed, List.mem_append, or_self]

/-! ### Document load (C2) -/

/-- C2: when the parsed root element is absent or is not tagged `FILTERGRAPH`, `loadDocument`
returns the failed result and the state it leaves is the previous one with the graph cleared:
no node and no connection, whatever the graph held before, and nothing loaded. -/
theorem loadDocument_invalid_root (c : Collaborators) (s : FilterGraph)
    (xml : Option XmlElement)
    (h : xml = none ∨ ∃ root, xml = some root ∧ root.hasTagName "FILTERGRAPH" = false) :
    ∃ s1, loadDocument c s xml = some (Result.fail "Not a valid filter graph file", s1) ∧
      s1 = { s with graph := s.graph.clear } ∧
      s1.graph.nodes = [] ∧ s1.graph.connections = [] := by
  rcases h with h | ⟨root, h, htag⟩
  · subst h
    exact ⟨_, rfl, rfl, rfl, rfl⟩
  · subst h
    refine ⟨{ s with graph := s.graph.clear }, ?_, rfl, rfl, rfl⟩
    simp [loadDocument, htag]

/-- C2 at a concrete input: a file that does not parse, and a root tagged `PATCH`, loaded over
the example document. -/
theorem loadDocument_invalid_root_witness :
    (∃ s1, loadDocument exampleCollaborators exampleDocument none =
        some (Result.fail "Not a valid filter graph file", s1) ∧
      s1 = { exampleDocument with graph := exampleDocument.graph.clear } ∧
      s1.graph.nodes = [] ∧ s1.graph.connections = []) ∧
    (∃ s1, loadDocument exampleCollaborators exampleDocument
        (some (XmlElement.mk "PATCH" [] [gainRecord 1] "")) =
        some (Result.fail "Not a valid filter graph file", s1) ∧
      s1 = { exampleDocument with graph := exampleDocument.graph.clear } ∧
      s1.graph.nodes = [] ∧ s1.graph.connections = []) :=
  ⟨loadDocument_invalid_root exampleCollaborators exampleDocument none (Or.inl rfl),
   loadDocument_invalid_root exampleCollaborators exampleDocument
    (some (XmlElement.mk "PATCH" [] [gainRecord 1] "")) (Or.inr ⟨_, rfl, by decide⟩)⟩

/-! ### Node factory (C3, C4, C5) -/

/-- C3 (code bug): for a third-party descriptor the loader fails on, `createNode` returns a
node all the same (a `PluginWrapper` around no plugin) and registers it in the graph. -/
theorem createNode_registers_failed_plugin :
    exampleCollaborators.createPluginInstance missingDescription = none ∧
    (createNode exampleCollaborators init missingDescription (-1)).1.isSome = true ∧
    init.graph.nodes.map (fun n => n.nodeId) = [] ∧
    (createNode exampleCollaborators init missingDescription (-1)).2.graph.nodes.map
      (fun n => (n.nodeId, n.processor.kind, n.processor.plugin)) =
      [(1, ProcessorKind.PluginWrapper, none)] := by
  refine ⟨by decide, by decide, by decide, by decide⟩

/-- C4 (code bug): loading a `FILTER` record whose internal plugin cannot be instantiated
dereferences the null node, in `createNodeFromXml` and in `restoreFromXml` and `loadDocument`
over a document that contains the record. -/
theorem createNodeFromXml_null_node :
    exampleCollaborators.createPluginInstance missingInternalDescription = none ∧
    createNodeFromXml exampleCollaborators exampleDocument missingInternalRecord = none ∧
    restoreFromXml exampleCollaborators exampleDocument
      (XmlElement.mk "FILTERGRAPH" [] [gainRecord 1, missingInternalRecord] "") = none ∧
    loadDocument exampleCollaborators exampleDocument
      (some (XmlElement.mk "FILTERGRAPH" [] [gainRecord 1, missingInternalRecord] "")) = none := by
  refine ⟨by decide, by decide, by decide, by decide⟩

/-- C5 as stated fails: the node of id `0xFFFFFFFF` is saved with the uid `-1`, and the node
loaded from a record of uid `-1` gets the next id of the counter, here `1`. -/
theorem createNodeFromXml_uid_minus_one :
    (createNodeXml lastIdNode).map (fun e => e.getIntAttribute "uid") = some (-1) ∧
    ((createNodeXml lastIdNode).bind (createNodeFromXml exampleCollaborators init)).map
      (fun r => r.graph.nodes.map (fun n => n.nodeId)) = some [1] ∧
    (createNode exampleCollaborators init gainDescription (-1)).1.map (fun n => n.nodeId) =
      some 1 := by
  refine ⟨by decide, by decide, by decide⟩

/-- C5 (amended): for every uid other than `-1`, the node `createNode` returns has the id
`(uint32) uid`; the node made by `createNodeFromXml` from a `FILTER` record with that uid is
the last node of the graph and has that id; and a node of id `u < 0xFFFFFFFF` saved by
`createNodeXml` is restored with the id `u`. -/
theorem createNode_uses_supplied_uid (c : Collaborators) (s : FilterGraph) :
    (∀ desc uid node, uid ≠ -1 → (createNode c s desc uid).1 = some node →
      node.nodeId = toUInt32 uid) ∧
    (∀ xml r, xml.getIntAttribute "uid" ≠ -1 → createNodeFromXml c s xml = some r →
      ∃ n, r.graph.nodes.getLast? = some n ∧
        n.nodeId = toUInt32 (xml.getIntAttribute "uid")) ∧
    (∀ node e r, node.nodeId < 4294967295 → createNodeXml node = some e →
      createNodeFromXml c s e = some r →
      ∃ n, r.graph.nodes.getLast? = some n ∧ n.nodeId = node.nodeId) := by
  have key : ∀ xml r, xml.getIntAttribute "uid" ≠ -1 → createNodeFromXml c s xml = some r →
      ∃ n, r.graph.nodes.getLast? = some n ∧
        n.nodeId = toUInt32 (xml.getIntAttribute "uid") := by
    intro xml r huid hr
    have hg := createNode_graph c s
      ((xml.children.findSome? PluginDescription.loadFromXml).getD {}) _ huid
    unfold createNodeFromXml at hr
    simp only at hr
    rcases hct : createNode c s ((xml.children.findSome? PluginDescription.loadFromXml).getD {})
      (xml.getIntAttribute "uid") with ⟨node1, s1⟩
    rw [hct] at hr hg
    cases node1 with
    | none => simp at hr
    | some node =>
      obtain ⟨hid1, -, -, -⟩ := hg node rfl
      simp only [Option.some.injEq] at hr
      subst hr
      refine ⟨_, List.getLast?_concat _, ?_⟩
      simp only []
      split <;> simp [hid1]
  refine ⟨?_, key, ?_⟩
  · intro desc uid node huid hn
    exact (createNode_graph c s desc uid huid node hn).1
  · intro node e r hlt he hr
    have huid := (createNodeXml_uid he).1
    obtain ⟨n, hn, hnid⟩ := key e r (by rw [huid]; exact toInt32_ne_neg_one _ hlt) hr
    exact ⟨n, hn, by rw [hnid, huid]; exact toUInt32_toInt32 _ (by omega)⟩

/-- C5 (amended) at concrete inputs: `createNode` with uid `7`, and a record of uid `-2` (the
id `0xFFFFFFFE`) loaded into the example document. -/
theorem createNode_uses_supplied_uid_witness :
    (∃ node, (createNode exampleCollaborators exampleDocument gainDescription 7).1 = some node ∧
      node.nodeId = 7) ∧
    (∃ r, createNodeFromXml exampleCollaborators exampleDocument (gainRecord (-2)) = some r ∧
      ∃ n, r.graph.nodes.getLast? = some n ∧ n.nodeId = 4294967294) := by
  obtain ⟨h1, h2, -⟩ := createNode_uses_supplied_uid exampleCollaborators exampleDocument
  constructor
  · cases hn : (createNode exampleCollaborators exampleDocument gainDescription 7).1 with
    | none => exact absurd hn (by decide)
    | some node => exact ⟨node, rfl, by rw [h1 gainDescription 7 node (by decide) hn]; decide⟩
  · cases hr : createNodeFromXml exampleCollaborators exampleDocument (gainRecord (-2)) with
    | none => exact absurd hr (by decide)
    | some r =>
      obtain ⟨n, hn, hid⟩ := h2 (gainRecord (-2)) r (by decide) hr
      exact ⟨r, rfl, n, hn, by rw [hid]; decide⟩

/-! ### Graph store calls and the dirty flag (C6) -/

theorem filter_changed_iff_any {α : Type} [DecidableEq α] (q : α → Bool) (l : List α) :
    decide (l.filter q ≠ l) = l.any (fun a => !q a) := by
  by_cases h : l.any (fun a => !q a) = true
  · rw [h]
    simp only [decide_eq_true_eq, ne_eq, List.filter_eq_self, not_forall]
    obtain ⟨a, ha, hp⟩ := List.any_eq_true.1 h
    exact ⟨a, ha, by simpa using hp⟩
  · have h2 : l.any (fun a => !q a) = false := by simpa using h
    rw [h2]
    simp only [decide_eq_false_iff_not, ne_eq, not_not, List.filter_eq_self]
    intro a ha
    have := List.any_eq_false.1 h2 a ha
    simpa using this

theorem addConnection_eq (s : FilterGraph) (src : Nat) (srcCh : Int) (dst : Nat) (dstCh : Int) :
    s.addConnection src srcCh dst dstCh =
      ((s.graph.addConnection src srcCh dst dstCh).1,
       { s with
         graph := (s.graph.addConnection src srcCh dst dstCh).2
         changedFlag := s.changedFlag || (s.graph.addConnection src srcCh dst dstCh).1 }) := by
  cases h : (s.graph.addConnection src srcCh dst dstCh).1 <;>
    simp [FilterGraph.addConnection, h, changed]

theorem removeConnection_eq (s : FilterGraph) (src : Nat) (srcCh : Int) (dst : Nat)
    (dstCh : Int) :
    s.removeConnection src srcCh dst dstCh =
      { s with
        graph := (s.graph.removeConnection src srcCh dst dstCh).2
        changedFlag := s.changedFlag || (s.graph.removeConnection src srcCh dst dstCh).1 } := by
  cases h : (s.graph.removeConnection src srcCh dst dstCh).1 <;>
    simp [FilterGraph.removeConnection, h, changed]

theorem disconnectFilter_eq (s : FilterGraph) (id : Nat) :
    s.disconnectFilter id =
      { s with
        graph := (s.graph.disconnectNode id).2
        changedFlag := s.changedFlag || (s.graph.disconnectNode id).1 } := by
  cases h : (s.graph.disconnectNode id).1 <;> simp [FilterGraph.disconnectFilter, h, changed]

theorem removeIllegalConnections_eq (s : FilterGraph) :
    s.removeIllegalConnections =
      { s with
        graph := (s.graph.removeIllegalConnections).2
        changedFlag := s.changedFlag || (s.graph.removeIllegalConnections).1 } := by
  cases h : (s.graph.removeIllegalConnections).1 <;>
    simp [FilterGraph.removeIllegalConnections, h, changed]

theorem removeFilter_eq (s : FilterGraph) (id : Nat) :
    s.removeFilter id =
      { s with
        graph := (s.graph.removeNode id).2
        changedFlag := s.changedFlag || (s.graph.removeNode id).1 } := by
  cases h : (s.graph.removeNode id).1 <;> simp [FilterGraph.removeFilter, h, changed]

/-- C6 as stated fails: `clear` on an empty graph and `removeConnection (index)` with an index
that names no connection leave the node and connection sets as they were and mark the document
dirty. -/
theorem changed_without_change :
    init.changedFlag = false ∧
    (init.clear).graph = init.graph ∧ (init.clear).changedFlag = true ∧
    exampleDocument.setChangedFlag false ≠ (exampleDocument.setChangedFlag false).removeConnectionAt 5 ∧
    ((exampleDocument.setChangedFlag false).removeConnectionAt 5).graph = exampleDocument.graph ∧
    ((exampleDocument.setChangedFlag false).removeConnectionAt 5).changedFlag = true := by
  refine ⟨by decide, by decide, by decide, by decide, by decide, by decide⟩

/-- C6 (amended): `addConnection`, `removeConnection` by endpoint tuple, `disconnectFilter` and
`removeIllegalConnections` leave the nodes alone and mark the document dirty exactly when they
changed the connections; `removeFilter` marks it dirty exactly when it removed a node; a
rejected `addConnection` returns `false` and changes nothing, and so does the removal by tuple
of a connection that is not there. `removeConnection (index)` and `clear` always mark the
document dirty. -/
theorem changed_iff_changed (s : FilterGraph) (src : Nat) (srcCh : Int) (dst : Nat)
    (dstCh : Int) (id : Nat) (index : Int) :
    ((s.addConnection src srcCh dst dstCh).2.graph.nodes = s.graph.nodes ∧
      (s.addConnection src srcCh dst dstCh).1 =
        decide ((s.addConnection src srcCh dst dstCh).2.graph.connections ≠ s.graph.connections) ∧
      (s.addConnection src srcCh dst dstCh).2.changedFlag =
        (s.changedFlag || (s.addConnection src srcCh dst dstCh).1) ∧
      (s.addConnection src srcCh dst dstCh).2 =
        (if (s.addConnection src srcCh dst dstCh).1 then (s.addConnection src srcCh dst dstCh).2
         else s)) ∧
    ((s.removeConnection src srcCh dst dstCh).graph.nodes = s.graph.nodes ∧
      (s.removeConnection src srcCh dst dstCh).changedFlag =
        (s.changedFlag ||
          decide ((s.removeConnection src srcCh dst dstCh).graph.connections ≠
            s.graph.connections)) ∧
      s.removeConnection src srcCh dst dstCh =
        (if (⟨src, srcCh, dst, dstCh⟩ : Connection) ∈ s.graph.connections then
          s.removeConnection src srcCh dst dstCh else s)) ∧
    ((s.disconnectFilter id).graph.nodes = s.graph.nodes ∧
      (s.disconnectFilter id).changedFlag =
        (s.changedFlag ||
          decide ((s.disconnectFilter id).graph.connections ≠ s.graph.connections))) ∧
    ((s.removeIllegalConnections).graph.nodes = s.graph.nodes ∧
      (s.removeIllegalConnections).changedFlag =
        (s.changedFlag ||
          decide ((s.removeIllegalConnections).graph.connections ≠ s.graph.connections))) ∧
    ((s.removeFilter id).changedFlag =
        (s.changedFlag || decide ((s.removeFilter id).graph.nodes ≠ s.graph.nodes))) ∧
    (s.removeConnectionAt index).changedFlag = true ∧
    (s.clear).changedFlag = true := by
  refine ⟨⟨?_, ?_, ?_, ?_⟩, ⟨?_, ?_, ?_⟩, ⟨?_, ?_⟩, ⟨?_, ?_⟩, ?_, rfl, rfl⟩
  · rw [addConnection_eq]
    unfold AudioProcessorGraph.addConnection
    split <;> rfl
  · rw [addConnection_eq]
    unfold AudioProcessorGraph.addConnection
    split <;> simp
  · rw [addConnection_eq]
  · rw [addConnection_eq]
    unfold AudioProcessorGraph.addConnection
    split <;> simp
  · rw [removeConnection_eq]
    rfl
  · rw [removeConnection_eq]
    simp only [AudioProcessorGraph.removeConnection, filter_changed_iff_any, Bool.not_not]
  · rw [removeConnection_eq]
    split
    · rfl
    · rename_i h
      have hall : ∀ a ∈ s.graph.connections,
          (!(a == (⟨src, srcCh, dst, dstCh⟩ : Connection))) = true := by
        intro a ha
        simp only [Bool.not_eq_true', beq_eq_false_iff_ne, ne_eq]
        intro heq
        exact h (heq ▸ ha)
      have hany : s.graph.connections.any
          (fun c => c == (⟨src, srcCh, dst, dstCh⟩ : Connection)) = false := by
        rw [List.any_eq_false]
        intro a ha
        simpa using hall a ha
      simp only [AudioProcessorGraph.removeConnection, hany, Bool.or_false,
        List.filter_eq_self.2 hall]
  · rw [disconnectFilter_eq]
    rfl
  · rw [disconnectFilter_eq]
    simp only [AudioProcessorGraph.disconnectNode, filter_changed_iff_any, Bool.not_not]
  · rw [removeIllegalConnections_eq]
    rfl
  · rw [removeIllegalConnections_eq]
    simp only [AudioProcessorGraph.removeIllegalConnections, filter_changed_iff_any]
  · rw [removeFilter_eq]
    simp only [AudioProcessorGraph.removeNode, AudioProcessorGraph.disconnectNode,
      filter_changed_iff_any, Bool.not_not]

/-! ### Transport clock (C7, C8, C9) -/

/-- C7 as stated fails: with the timer running, `setBPM (7)` restarts it with the period
`857` ms, the `float` product `100*(60.f/7)` cut to an `int`, which is not `100*(60/7)` ms. -/
theorem setBPM_period_truncated :
    (init.setIsPlaying true false).timerRunning = true ∧
    ((init.setIsPlaying true false).setBPM 7).timerInterval = 857 ∧
    (((init.setIsPlaying true false).setBPM 7).timerInterval : ℚ) ≠ 100 * (60 / 7) := by
  have h : ((init.setIsPlaying true false).setBPM 7).timerInterval = 857 := by decide
  refine ⟨by decide, h, ?_⟩
  rw [h]
  norm_num

/-- C7 (amended): for every BPM `b > 0`, `setBPM (b)` while the timer is running leaves it
running with the period `100*(60.f/b)` evaluated in single precision and cut to a whole number
of milliseconds, stores `b` as the current BPM (also in the play-head) and leaves the seconds
counter, the tick counter, the sub-tick counter and the sub-position unchanged; while the
timer is stopped it stores `b` and does not start the timer. -/
theorem setBPM_restarts_timer (s : FilterGraph) (b : Int) (hb : 0 < b) :
    (s.timerRunning = true →
      (s.setBPM b).timerRunning = true ∧ (s.setBPM b).timerInterval = timerPeriod b) ∧
    (s.timerRunning = false →
      (s.setBPM b).timerRunning = false ∧ (s.setBPM b).timerInterval = s.timerInterval) ∧
    (s.setBPM b).currentBPM = b ∧ (s.setBPM b).audioPlayHead.bpm = b ∧
    (s.setBPM b).timeInSeconds = s.timeInSeconds ∧ (s.setBPM b).ppqPosition = s.ppqPosition ∧
    (s.setBPM b).subTicks = s.subTicks ∧ (s.setBPM b).playPosition = s.playPosition := by
  have _ := hb
  cases h : s.timerRunning <;>
    simp [setBPM, isTimerRunning, startTimer, stopTimer, h]

/-- C7 (amended) at concrete inputs: 120 BPM set while the transport runs, after one timer
callback, gives the period 50 ms and keeps the position; set on a new document, whose timer is
stopped, it does not start the timer. -/
theorem setBPM_restarts_timer_witness :
    (0 : Int) < 120 ∧
    (hiResTimerCallback (init.setIsPlaying true false)).timerRunning = true ∧
    ((hiResTimerCallback (init.setIsPlaying true false)).setBPM 120).timerRunning = true ∧
    ((hiResTimerCallback (init.setIsPlaying true false)).setBPM 120).timerInterval = 50 ∧
    ((hiResTimerCallback (init.setIsPlaying true false)).setBPM 120).subTicks = 1 ∧
    ((hiResTimerCallback (init.setIsPlaying true false)).setBPM 120).playPosition =
      ⟨13421773, -27⟩ ∧
    (init.setBPM 120).timerRunning = false := by
  obtain ⟨h1, -, -, -, -, -, h7, h8⟩ :=
    setBPM_restarts_timer (hiResTimerCallback (init.setIsPlaying true false)) 120 (by decide)
  have hrun : (hiResTimerCallback (init.setIsPlaying true false)).timerRunning = true := by
    decide
  refine ⟨by decide, hrun, (h1 hrun).1, ?_, ?_, ?_,
    ((setBPM_restarts_timer init 120 (by decide)).2.1 (by decide)).1⟩
  · rw [(h1 hrun).2]; decide
  · rw [h7]; decide
  · rw [h8]; decide

/-- C8 as stated fails: after one timer callback the sub-position accumulator is `0.1f`, and
`setIsPlaying (true, true)` leaves it (and the sub-tick counter) as it was. -/
theorem setIsPlaying_reset_keeps_sub_position :
    (hiResTimerCallback (init.setIsPlaying true false)).playPosition = ⟨13421773, -27⟩ ∧
    ((hiResTimerCallback (init.setIsPlaying true false)).setIsPlaying true true).playPosition =
      ⟨13421773, -27⟩ ∧
    F32.beq ((hiResTimerCallback (init.setIsPlaying true false)).setIsPlaying true
      true).playPosition (F32.ofInt 0) = false ∧
    ((hiResTimerCallback (init.setIsPlaying true false)).setIsPlaying true true).subTicks = 1 := by
  refine ⟨by decide, by decide, by decide, by decide⟩

/-- C8 (amended): for every transport state, `setIsPlaying (v, true)` leaves the
elapsed-seconds counter and the tick (PPQ) position equal to zero, in the document and in the
play-head, so that `setIsPlaying (false)` followed by `setIsPlaying (true, true)` resumes, with
the timer running, from seconds zero and tick zero. -/
theorem setIsPlaying_reset (s : FilterGraph) (v r : Bool) :
    (s.setIsPlaying v true).timeInSeconds = 0 ∧ (s.setIsPlaying v true).ppqPosition = 0 ∧
    (s.setIsPlaying v true).audioPlayHead.timeInSeconds = 0 ∧
    (s.setIsPlaying v true).audioPlayHead.ppqPosition = 0 ∧
    (s.setIsPlaying v true).timerRunning = v ∧
    (s.setIsPlaying v true).audioPlayHead.isPlaying = v ∧
    ((s.setIsPlaying false r).setIsPlaying true true).timerRunning = true ∧
    ((s.setIsPlaying false r).setIsPlaying true true).timeInSeconds = 0 ∧
    ((s.setIsPlaying false r).setIsPlaying true true).ppqPosition = 0 ∧
    ((s.setIsPlaying false r).setIsPlaying true true).audioPlayHead.timeInSeconds = 0 ∧
    ((s.setIsPlaying false r).setIsPlaying true true).audioPlayHead.ppqPosition = 0 := by
  cases v <;> cases r <;> simp [setIsPlaying, startTimer, stopTimer]

theorem hiResTimerCallback_subTicks (s : FilterGraph) :
    (hiResTimerCallback s).subTicks = (if s.subTicks > 9 then 0 else s.subTicks + 1) ∧
    (hiResTimerCallback s).ppqPosition =
      (if s.subTicks = 0 then s.ppqPosition + 1 else s.ppqPosition) := by
  unfold hiResTimerCallback
  constructor <;> (simp only []; split <;> split <;> simp_all)

theorem callbacks_ticks (n : Nat) :
    ∀ s : FilterGraph, 0 ≤ s.subTicks → s.subTicks ≤ 10 →
      (callbacks n s).subTicks = (s.subTicks + n) % 11 ∧
      (callbacks n s).ppqPosition =
        s.ppqPosition + ((s.subTicks + n + 10) / 11 - (s.subTicks + 10) / 11) := by
  induction n with
  | zero =>
    intro s h0 h10
    simp only [callbacks, Nat.cast_zero, add_zero]
    constructor <;> omega
  | succ n ih =>
    intro s h0 h10
    obtain ⟨hst, hppq⟩ := hiResTimerCallback_subTicks s
    have h0a : 0 ≤ (hiResTimerCallback s).subTicks := by rw [hst]; split <;> omega
    have h10a : (hiResTimerCallback s).subTicks ≤ 10 := by rw [hst]; split <;> omega
    obtain ⟨ih1, ih2⟩ := ih (hiResTimerCallback s) h0a h10a
    simp only [callbacks, ih1, ih2, hst, hppq, Nat.cast_add, Nat.cast_one]
    constructor
    · split <;> omega
    · split <;> split <;> omega

/-- C9 (code bug): from the initial state with the transport started, the sub-tick counter is
`10` after 10 callbacks and returns to `0` after 11, and after 110 callbacks the tick counter
has advanced 10 times (from `1` to `11`), not 11 times: the counter runs through the 11 values
`0..10`. -/
theorem subTicks_period_eleven :
    (init.setIsPlaying true false).subTicks = 0 ∧
    (init.setIsPlaying true false).ppqPosition = 1 ∧
    (callbacks 10 (init.setIsPlaying true false)).subTicks = 10 ∧
    (callbacks 11 (init.setIsPlaying true false)).subTicks = 0 ∧
    (callbacks 110 (init.setIsPlaying true false)).ppqPosition = 11 := by
  have h0 : (init.setIsPlaying true false).subTicks = 0 := by decide
  have hp : (init.setIsPlaying true false).ppqPosition = 1 := by decide
  have h := fun n => callbacks_ticks n (init.setIsPlaying true false) (by rw [h0]) (by rw [h0]; decide)
  refine ⟨h0, hp, ?_, ?_, ?_⟩
  · rw [(h 10).1, h0]; decide
  · rw [(h 11).1, h0]; decide
  · rw [(h 110).2, h0, hp]; decide

/-! ### MIDI mapping lookup (C10) -/

theorem midiInfo_ne_empty (a b : String) : "CC:" ++ a ++ " Chan:" ++ b ≠ "" := by
  intro h
  have := congrArg String.length h
  simp only [String.length_append] at this
  have h3 : "CC:".length = 3 := by decide
  have h0 : "".length = 0 := by decide
  omega

/-- C10: for every mapping table and every (nodeId, paramIndex), `findControllerForparameter`
returns `"CC:<controller> Chan:<channel>"` built from the first mapping, in the order of the
table, whose nodeId and parameterIndex both match, and the empty text when there is none; the
result is empty exactly when no mapping matches. -/
theorem findControllerForparameter_first_match (ms : List CabbageMidiMapping)
    (nodeID paramIndex : Int) :
    findControllerForparameter ms nodeID paramIndex =
      (match ms.find? (fun m => decide (m.nodeId = nodeID ∧ m.parameterIndex = paramIndex)) with
       | some m => "CC:" ++ toString m.controller ++ " Chan:" ++ toString m.channel
       | none => "") ∧
    (findControllerForparameter ms nodeID paramIndex = "" ↔
      ∀ m ∈ ms, ¬ (m.nodeId = nodeID ∧ m.parameterIndex = paramIndex)) := by
  induction ms with
  | nil => simp [findControllerForparameter]
  | cons m ms ih =>
    by_cases hm : m.nodeId = nodeID ∧ m.parameterIndex = paramIndex
    · constructor
      · simp [findControllerForparameter, List.find?, hm]
      · simp only [findControllerForparameter, hm, and_self, if_true, List.mem_cons,
          forall_eq_or_imp, not_true_eq_false, false_and, iff_false]
        exact midiInfo_ne_empty _ _
    · constructor
      · rw [List.find?_cons_of_neg _ (by simpa using hm)]
        simp only [findControllerForparameter, hm, if_false]
        exact ih.1
      · simp only [findControllerForparameter, hm, if_false, List.mem_cons, forall_eq_or_imp,
          not_false_eq_true, true_and]
        exact ih.2

/-- C10 at a concrete table: two mappings of parameter 2 of node 1, the first one is shown;
a parameter without a mapping gives the empty text. -/
theorem findControllerForparameter_first_match_witness :
    findControllerForparameter [⟨3, 0, 1, 7⟩, ⟨1, 2, 3, 4⟩, ⟨1, 2, 5, -6⟩] 1 2 = "CC:4 Chan:3" ∧
    findControllerForparameter [⟨3, 0, 1, 7⟩, ⟨1, 2, 3, 4⟩, ⟨1, 2, 5, -6⟩] 1 3 = "" ∧
    (∀ m ∈ ([⟨3, 0, 1, 7⟩, ⟨1, 2, 3, 4⟩, ⟨1, 2, 5, -6⟩] : List CabbageMidiMapping),
      ¬ (m.nodeId = 1 ∧ m.parameterIndex = 3)) := by
  have h1 := (findControllerForparameter_first_match
    [⟨3, 0, 1, 7⟩, ⟨1, 2, 3, 4⟩, ⟨1, 2, 5, -6⟩] 1 2).1
  have h2 := (findControllerForparameter_first_match
    [⟨3, 0, 1, 7⟩, ⟨1, 2, 3, 4⟩, ⟨1, 2, 5, -6⟩] 1 3).2
  have h3 : findControllerForparameter [⟨3, 0, 1, 7⟩, ⟨1, 2, 3, 4⟩, ⟨1, 2, 5, -6⟩] 1 3 = "" := by
    decide
  exact ⟨h1.trans (by decide), h3, h2.1 h3⟩

/-! ### Load and clear (C11) -/

theorem createNode_isSome_indep (c : Collaborators) (t t0 : FilterGraph)
    (desc : PluginDescription) (uid : Int) :
    (createNode c t desc uid).1.isSome = (createNode c t0 desc uid).1.isSome := by
  unfold createNode
  split_ifs
  · rfl
  · rfl
  · cases c.createPluginInstance desc <;> rfl
  · rfl
  · rfl

theorem createNode_midiMappings (c : Collaborators) (t : FilterGraph)
    (desc : PluginDescription) (uid : Int) :
    (createNode c t desc uid).2.midiMappings = t.midiMappings := by
  unfold createNode
  split_ifs
  · rfl
  · rfl
  · cases c.createPluginInstance desc <;> rfl
  · rfl
  · rfl

theorem createNodeFromXml_of_recordLoads (c : Collaborators) (t : FilterGraph) (e : XmlElement)
    (h : recordLoads c e = true) :
    ∃ r, createNodeFromXml c t e = some r ∧ r.midiMappings = t.midiMappings := by
  unfold recordLoads at h
  have hi := createNode_isSome_indep c t {}
    ((e.children.findSome? PluginDescription.loadFromXml).getD {}) (e.getIntAttribute "uid")
  have hm := createNode_midiMappings c t
    ((e.children.findSome? PluginDescription.loadFromXml).getD {}) (e.getIntAttribute "uid")
  unfold createNodeFromXml at h ⊢
  simp only at h ⊢
  rcases hc0 : createNode c {} ((e.children.findSome? PluginDescription.loadFromXml).getD {})
    (e.getIntAttribute "uid") with ⟨node0, s0⟩
  rcases hct : createNode c t ((e.children.findSome? PluginDescription.loadFromXml).getD {})
    (e.getIntAttribute "uid") with ⟨node1, s1⟩
  rw [hc0] at h hi
  rw [hct] at hi hm
  cases node0 with
  | none => simp at h
  | some n0 =>
    cases node1 with
    | none => simp at hi
    | some n1 => exact ⟨_, rfl, hm⟩

theorem restore_filters_midiMappings (c : Collaborators) (es : List XmlElement) :
    ∀ t : FilterGraph, (∀ e ∈ es, recordLoads c e = true) →
      ∃ r, es.foldlM (fun t e => (createNodeFromXml c t e).map changed) t = some r ∧
        r.midiMappings = t.midiMappings := by
  induction es with
  | nil => intro t _; exact ⟨t, rfl, rfl⟩
  | cons e es ih =>
    intro t h
    obtain ⟨r1, hr1, hm1⟩ := createNodeFromXml_of_recordLoads c t e (h e (List.mem_cons_self _ _))
    obtain ⟨r, hr, hm⟩ := ih (changed r1) (fun x hx => h x (List.mem_cons_of_mem _ hx))
    refine ⟨r, ?_, ?_⟩
    · rw [List.foldlM_cons, hr1]
      exact hr
    · rw [hm]
      simpa [changed] using hm1

theorem addConnection_fold_midiMappings (es : List XmlElement) :
    ∀ t : FilterGraph,
    (es.foldl
      (fun t e =>
        (t.addConnection (toUInt32 (e.getIntAttribute "srcFilter"))
          (e.getIntAttribute "srcChannel") (toUInt32 (e.getIntAttribute "dstFilter"))
          (e.getIntAttribute "dstChannel")).2) t).midiMappings = t.midiMappings := by
  induction es with
  | nil => intro t; rfl
  | cons e es ih =>
    intro t
    rw [List.foldl_cons, ih, addConnection_eq]

theorem readMappings_fold (es : List XmlElement) :
    ∀ t : FilterGraph,
    es.foldl
      (fun (t : FilterGraph) e =>
        { t with
          midiMappings := t.midiMappings ++
            [⟨e.getIntAttribute "NodeId", e.getIntAttribute "ParameterIndex",
              e.getIntAttribute "Channel", e.getIntAttribute "Controller"⟩] }) t =
      { t with midiMappings := t.midiMappings ++ es.map readMappingXml } := by
  induction es with
  | nil => intro t; simp
  | cons e es ih =>
    intro t
    rw [List.foldl_cons, ih]
    simp [readMappingXml]

theorem restoreFromXml_midiMappings (c : Collaborators) (s : FilterGraph) (xml : XmlElement)
    (h : ∀ e ∈ xml.childrenWithTagName "FILTER", recordLoads c e = true) :
    ∃ r, restoreFromXml c s xml = some r ∧
      r.midiMappings = s.midiMappings ++ readMappings xml := by
  obtain ⟨r1, hr1, hm1⟩ := restore_filters_midiMappings c _ s.clear h
  unfold restoreFromXml
  simp only [hr1, readMappings_fold]
  refine ⟨_, rfl, ?_⟩
  simp only [addConnection_fold_midiMappings, hm1, readMappings]
  rfl

/-- C11 as stated fails: `documentB` loaded over the document that `documentA` was loaded
into leaves the mapping of `documentA` in front of the mapping of `documentB`, and `clear`
keeps the mapping list. -/
theorem restoreFromXml_keeps_previous_mappings :
    loadedDocumentA.midiMappings = [⟨1, 0, 1, 7⟩] ∧
    readMappings documentB = [⟨1, 3, 2, 20⟩] ∧
    (restoreFromXml exampleCollaborators loadedDocumentA documentB).map
      (fun r => r.midiMappings) = some [⟨1, 0, 1, 7⟩, ⟨1, 3, 2, 20⟩] ∧
    (loadedDocumentA.clear).midiMappings = [⟨1, 0, 1, 7⟩] := by
  refine ⟨by decide, by decide, by decide, by decide⟩

/-- C11 (amended): for every prior document state and every document tree whose `FILTER`
records load, `restoreFromXml` completes and the mapping list it leaves ends with the
`MIDI_MAPPINGS` records of the tree in order; it is exactly that list when the document held
no mappings before the call. After `clear ()` the document holds no nodes and no
connections. -/
theorem restoreFromXml_mappings (c : Collaborators) (s : FilterGraph) (xml : XmlElement)
    (h : ∀ e ∈ xml.childrenWithTagName "FILTER", recordLoads c e = true) :
    (∃ r, restoreFromXml c s xml = some r ∧
      readMappings xml <:+ r.midiMappings ∧
      (s.midiMappings = [] → r.midiMappings = readMappings xml)) ∧
    (s.clear).graph.nodes = [] ∧ (s.clear).graph.connections = [] := by
  obtain ⟨r, hr, hm⟩ := restoreFromXml_midiMappings c s xml h
  refine ⟨⟨r, hr, ?_, ?_⟩, rfl, rfl⟩
  · rw [hm]
    exact List.suffix_append _ _
  · intro h0
    rw [hm, h0, List.nil_append]

/-- C11 (amended) at concrete inputs: `documentB` loaded into a new document gives exactly
its one mapping; loaded over `loadedDocumentA` it gives a list ending with that mapping; and
`clear` empties the graph of `loadedDocumentA`. -/
theorem restoreFromXml_mappings_witness :
    (∀ e ∈ documentB.childrenWithTagName "FILTER", recordLoads exampleCollaborators e = true) ∧
    init.midiMappings = [] ∧
    (∃ r, restoreFromXml exampleCollaborators init documentB = some r ∧
      r.midiMappings = [⟨1, 3, 2, 20⟩]) ∧
    (∃ r, restoreFromXml exampleCollaborators loadedDocumentA documentB = some r ∧
      readMappings documentB <:+ r.midiMappings) ∧
    loadedDocumentA.graph.nodes ≠ [] ∧ (loadedDocumentA.clear).graph.nodes = [] := by
  have hB : ∀ e ∈ documentB.childrenWithTagName "FILTER",
      recordLoads exampleCollaborators e = true := by decide
  obtain ⟨⟨r, hr, -, hexact⟩, -, -⟩ := restoreFromXml_mappings exampleCollaborators init documentB hB
  obtain ⟨⟨r2, hr2, hsuf, -⟩, hclear, -⟩ :=
    restoreFromXml_mappings exampleCollaborators loadedDocumentA documentB hB
  have h0 : init.midiMappings = [] := by decide
  refine ⟨hB, h0, ⟨r, hr, ?_⟩, ⟨r2, hr2, hsuf⟩, by decide, hclear⟩
  rw [hexact h0]
  decide

/-! ### Node positions (C12) -/

theorem getNodePosition_absent (s : FilterGraph) (nodeId : Int)
    (h : s.graph.getNodeForId (toUInt32 nodeId) = none) : s.getNodePosition nodeId = (0, 0) := by
  simp [getNodePosition, h]

theorem find?_updateNodeForId (f : Node → Node) (hf : ∀ n, (f n).nodeId = n.nodeId)
    (l : List Node) (id : Nat) :
    (updateNodeForId f l id).find? (fun n => n.nodeId == id) =
      (l.find? (fun n => n.nodeId == id)).map f := by
  induction l with
  | nil => rfl
  | cons n l ih =>
    unfold updateNodeForId
    by_cases hn : n.nodeId = id
    · rw [if_pos hn, List.find?_cons_of_pos _ (by simpa [hf] using hn),
        List.find?_cons_of_pos _ (by simpa using hn)]
      rfl
    · rw [if_neg hn, List.find?_cons_of_neg _ (by simpa using hn),
        List.find?_cons_of_neg _ (by simpa using hn)]
      exact ih

theorem getNodePosition_setNodePosition (s : FilterGraph) (nodeId : Int) (x y : ℚ) (n : Node)
    (h : s.graph.getNodeForId (toUInt32 nodeId) = some n) :
    (s.setNodePosition nodeId x y).getNodePosition nodeId = (jlimit 0 1 x, jlimit 0 1 y) := by
  unfold AudioProcessorGraph.getNodeForId at h
  simp only [setNodePosition, AudioProcessorGraph.getNodeForId, h, getNodePosition]
  have key := find?_updateNodeForId
    (fun n : Node =>
      { n with
        properties :=
          { n.properties with x := some (jlimit 0 1 x), y := some (jlimit 0 1 y) } })
    (fun _ => rfl) s.graph.nodes (toUInt32 nodeId)
  rw [key, h]
  rfl

theorem jlimit_mem (x : ℚ) : 0 ≤ jlimit 0 1 x ∧ jlimit 0 1 x ≤ 1 := by
  unfold jlimit
  split_ifs <;> constructor <;> linarith

/-- C12 (code bug): `addFilter` and `createNodeFromXml` store the position they are given
without clamping it: the node added at (2, -1) and the node loaded from a record saved at
(5, -3) keep those values and `getNodePosition` returns them, while `setNodePosition` with
the same arguments stores (1, 0). -/
theorem position_written_unclamped :
    (addFilter exampleCollaborators init (some gainDescription) 2 (-1)).graph.nodes.map
      (fun n => (n.nodeId, n.properties.x, n.properties.y)) = [(1, some 2, some (-1))] ∧
    (addFilter exampleCollaborators init (some gainDescription) 2 (-1)).getNodePosition 1 =
      (2, -1) ∧
    (createNodeFromXml exampleCollaborators init farAwayRecord).map
      (fun r => r.graph.nodes.map (fun n => (n.nodeId, n.properties.x, n.properties.y))) =
      some [(1, some 5, some (-3))] ∧
    (createNodeFromXml exampleCollaborators init farAwayRecord).map
      (fun r => r.getNodePosition 1) = some (5, -3) ∧
    ((addFilter exampleCollaborators init (some gainDescription) 2 (-1)).setNodePosition 1 2
      (-1)).getNodePosition 1 = (1, 0) := by
  refine ⟨by decide, by decide, by decide, by decide, by decide⟩

/-! ### Parameter listeners (C13) -/

theorem removeFilter_listeners (s : FilterGraph) (id : Nat) :
    (s.removeFilter id).audioProcessorListeners = s.audioProcessorListeners := by
  rw [removeFilter_eq]

theorem clear_listeners (s : FilterGraph) :
    (s.clear).audioProcessorListeners = s.audioProcessorListeners := rfl

theorem createNode_listeners (c : Collaborators) (t : FilterGraph)
    (desc : PluginDescription) (uid : Int) :
    (createNode c t desc uid).2.audioProcessorListeners = t.audioProcessorListeners ∧
    ((createNode c t desc uid).1 = none → (createNode c t desc uid).2.graph = t.graph) := by
  unfold createNode
  split_ifs
  · exact ⟨rfl, by simp⟩
  · exact ⟨rfl, by simp⟩
  · cases c.createPluginInstance desc
    · exact ⟨rfl, fun _ => rfl⟩
    · exact ⟨rfl, by simp⟩
  · exact ⟨rfl, by simp⟩
  · exact ⟨rfl, by simp⟩

theorem createNode_without_uid (c : Collaborators) (t : FilterGraph) (desc : PluginDescription)
    (node : Node) (hn : (createNode c t desc (-1)).1 = some node) :
    (createNode c t desc (-1)).2.graph.nodes = t.graph.nodes ++ [node] := by
  unfold createNode at hn ⊢
  split_ifs at hn ⊢
  · simp [addNodeFor, AudioProcessorGraph.addNode, AudioProcessorGraph.setNode] at hn ⊢
    subst hn
    simp
  · simp [addNodeFor, AudioProcessorGraph.addNode, AudioProcessorGraph.setNode] at hn ⊢
    subst hn
    simp
  · cases hc : c.createPluginInstance desc with
    | none => simp [hc] at hn
    | some inst =>
      simp [hc, addNodeFor, AudioProcessorGraph.addNode, AudioProcessorGraph.setNode] at hn ⊢
      subst hn
      simp
  · simp [addNodeFor, AudioProcessorGraph.addNode, AudioProcessorGraph.setNode] at hn ⊢
    subst hn
    simp
  · simp [addNodeFor, AudioProcessorGraph.addNode, AudioProcessorGraph.setNode] at hn ⊢
    subst hn
    simp

theorem addFilter_registers_listener (c : Collaborators) (s : FilterGraph)
    (d : PluginDescription) (x y : ℚ) :
    (∃ n, (addFilter c s (some d) x y).graph.nodes =
        s.graph.nodes ++ [n] ∧
      (addFilter c s (some d) x y).audioProcessorListeners =
        s.audioProcessorListeners ++ [⟨n.nodeId, 0⟩]) ∨
    ((addFilter c s (some d) x y).graph = s.graph ∧
      (addFilter c s (some d) x y).audioProcessorListeners = s.audioProcessorListeners) := by
  obtain ⟨hl, hg⟩ := createNode_listeners c s d (-1)
  have hnodes := createNode_without_uid c s d
  unfold addFilter
  simp only []
  rcases hc : createNode c s d (-1) with ⟨node, s1⟩
  rw [hc] at hl hg hnodes
  cases node with
  | none =>
    right
    exact ⟨hg rfl, hl⟩
  | some n =>
    left
    have hn1 : s1.graph.nodes = s.graph.nodes ++ [n] := hnodes n rfl
    have hl1 : s1.audioProcessorListeners = s.audioProcessorListeners := hl
    refine ⟨{ n with properties := { n.properties with x := some x, y := some y } }, ?_, ?_⟩
    · simp only [changed, AudioProcessorGraph.setNode, hn1, List.dropLast_concat]
    · simp only [changed, hl1]

theorem map_nodeId_updateNodeForId (f : Node → Node) (hf : ∀ n, (f n).nodeId = n.nodeId)
    (l : List Node) (id : Nat) :
    (updateNodeForId f l id).map (fun n => n.nodeId) = l.map (fun n => n.nodeId) := by
  induction l with
  | nil => rfl
  | cons n l ih =>
    unfold updateNodeForId
    split_ifs
    · simp [hf]
    · simp [ih]

theorem setNodePosition_nodeIds (s : FilterGraph) (nodeId : Int) (x y : ℚ) :
    (s.setNodePosition nodeId x y).audioProcessorListeners = s.audioProcessorListeners ∧
    (s.setNodePosition nodeId x y).graph.nodes.map (fun n => n.nodeId) =
      s.graph.nodes.map (fun n => n.nodeId) := by
  unfold setNodePosition
  split
  · exact ⟨rfl, map_nodeId_updateNodeForId
      (fun n : Node =>
        { n with
          properties :=
            { n.properties with x := some (jlimit 0 1 x), y := some (jlimit 0 1 y) } })
      (fun _ => rfl) s.graph.nodes (toUInt32 nodeId)⟩
  · exact ⟨rfl, rfl⟩

theorem applyEdit_listenersHaveNodes (c : Collaborators) (s : FilterGraph) (e : Edit)
    (h : listenersHaveNodes s) : listenersHaveNodes (applyEdit c s e) := by
  have keep : ∀ t : FilterGraph, t.audioProcessorListeners = s.audioProcessorListeners →
      t.graph.nodes.map (fun n => n.nodeId) = s.graph.nodes.map (fun n => n.nodeId) →
      listenersHaveNodes t := by
    intro t hl hn l hmem
    rw [hn]
    exact h l (hl ▸ hmem)
  cases e with
  | addFilter desc x y =>
    cases desc with
    | none => exact h
    | some d =>
      rcases addFilter_registers_listener c s d x y with ⟨n, hn, hl⟩ | ⟨hg, hl⟩
      · intro l hmem
        simp only [applyEdit, hn, hl, List.map_append, List.mem_append, List.map_cons,
          List.map_nil, List.mem_singleton] at hmem ⊢
        rcases hmem with hmem | hmem
        · exact Or.inl (h l hmem)
        · exact Or.inr (by rw [hmem])
      · exact keep _ hl (by simp only [applyEdit, hg])
  | addConnection src srcCh dst dstCh =>
    refine keep _ (by simp only [applyEdit, addConnection_eq]) ?_
    simp only [applyEdit, addConnection_eq, AudioProcessorGraph.addConnection]
    split <;> rfl
  | removeConnectionAt index =>
    refine keep _ rfl ?_
    simp only [applyEdit, FilterGraph.removeConnectionAt, changed,
      AudioProcessorGraph.removeConnectionAt]
    split <;> rfl
  | removeConnection src srcCh dst dstCh =>
    exact keep _ (by simp only [applyEdit, removeConnection_eq])
      (by simp only [applyEdit, removeConnection_eq, AudioProcessorGraph.removeConnection])
  | disconnectFilter id =>
    exact keep _ (by simp only [applyEdit, disconnectFilter_eq])
      (by simp only [applyEdit, disconnectFilter_eq, AudioProcessorGraph.disconnectNode])
  | removeIllegalConnections =>
    exact keep _ (by simp only [applyEdit, removeIllegalConnections_eq])
      (by simp only [applyEdit, removeIllegalConnections_eq,
        AudioProcessorGraph.removeIllegalConnections])
  | setNodePosition nodeId x y =>
    exact keep _ (setNodePosition_nodeIds s nodeId x y).1 (setNodePosition_nodeIds s nodeId x y).2

/-- C13 as stated fails: after `addFilter` and `removeFilter (1)`, and after `addFilter` and
`clear`, the graph has no node and the listener of node 1 is still registered. -/
theorem listener_outlives_node :
    ((addFilter exampleCollaborators init (some gainDescription) 0 0).removeFilter
      1).graph.nodes = [] ∧
    ((addFilter exampleCollaborators init (some gainDescription) 0 0).removeFilter
      1).audioProcessorListeners = [⟨1, 0⟩] ∧
    ((addFilter exampleCollaborators init (some gainDescription) 0 0).clear).graph.nodes = [] ∧
    ((addFilter exampleCollaborators init (some gainDescription) 0 0).clear).audioProcessorListeners =
      [⟨1, 0⟩] := by
  refine ⟨by decide, by decide, by decide, by decide⟩

/-- C13 (amended): after every sequence of calls that remove no node (`addFilter`,
`addConnection`, the two `removeConnection`s, `disconnectFilter`, `removeIllegalConnections`,
`setNodePosition`) on a new document, each registered per-node parameter listener carries the
id of a node currently in the graph. -/
theorem listeners_carry_node_ids (c : Collaborators) (edits : List Edit) :
    listenersHaveNodes (edits.foldl (applyEdit c) init) := by
  have hinit : listenersHaveNodes init := by
    intro l hl
    have h0 : init.audioProcessorListeners = [] := by decide
    rw [h0] at hl
    exact absurd hl (List.not_mem_nil l)
  have step : ∀ (es : List Edit) (s : FilterGraph), listenersHaveNodes s →
      listenersHaveNodes (es.foldl (applyEdit c) s) := by
    intro es
    induction es with
    | nil => intro s hs; exact hs
    | cons e es ih =>
      intro s hs
      exact ih _ (applyEdit_listenersHaveNodes c s e hs)
  exact step edits init hinit

end Host
